import Mathlib

/-!
Shallow embedding of the property-management backend in `src/server.js`:
the Sequelize data model (row structures and a `Store` of tables), the
request shapes, and the route handlers that the verified claims are about.

Conventions of the embedding:
* A JavaScript number is modelled as `JNum`: `NaN` or an exact scaled
  decimal `m · 10^(-e)` (covers every FLOAT/DECIMAL literal in the source,
  e.g. `9.99` is `JNum.dec 999 2`).
* A JSON/JavaScript value in a request body or a nullable column is a
  `JVal` (`undef` models an absent key / `undefined`).
* Each Sequelize table is a `List` of row structures inside `Store`,
  together with the autoincrement counter for fresh primary keys.
* Handlers are pure functions from the request and the store to
  `status × body × store`.  The two composite handlers that run inside a
  database transaction are written in a small state-and-failure monad
  `TxM`: each database call consults a failure oracle, and the catch
  branch of the handler rolls back by returning the original store.
* Dates (`DataTypes.NOW`, `new Date()`) are outside the model; date
  columns that no claim inspects are carried as `JVal` request data or
  omitted where the source only ever writes the current time.
-/

/-- Model of a JavaScript number: `NaN` or the exact decimal `m · 10^(-e)`. -/
inductive JNum where
  | nan : JNum
  | dec : Int → Nat → JNum
deriving DecidableEq

/-- Model of a JSON/JavaScript value as it appears in request bodies and in
nullable table columns.  `undef` models an absent object key. -/
inductive JVal where
  | undef : JVal
  | null : JVal
  | str : String → JVal
  | jnum : JNum → JVal
  | jbool : Bool → JVal
deriving DecidableEq

/-- JavaScript truthiness test, negated: `undefined`, `null`, `''`, `0`,
`NaN` and `false` are falsy. -/
def falsy : JVal → Bool
  | JVal.undef => true
  | JVal.null => true
  | JVal.str s => s == ""
  | JVal.jnum JNum.nan => true
  | JVal.jnum (JNum.dec m _) => m == 0
  | JVal.jbool b => !b

/-- Sequelize stores an `undefined` attribute of a freshly created row as SQL
`NULL`; present values pass through. -/
def jvalOrNull (v : JVal) : JVal :=
  if v = JVal.undef then JVal.null else v

/-- Digit value of a character, if it is a decimal digit. -/
def digitVal (c : Char) : Option Nat :=
  if c.isDigit then some (c.toNat - Char.toNat '0') else none

/-- Splits a leading run of decimal digits off a character list. -/
def takeDigits : List Char → List Nat × List Char
  | [] => ([], [])
  | c :: rest =>
    match digitVal c with
    | some d =>
      let p := takeDigits rest
      (d :: p.1, p.2)
    | none => ([], c :: rest)

/-- Reads a digit list as a natural number, most significant digit first. -/
def digitsToNat (ds : List Nat) : Nat :=
  ds.foldl (fun acc d => acc * 10 + d) 0

/-- Model of JavaScript `parseFloat` on a character list: skip leading
whitespace, optional sign, digits, optional fraction; trailing garbage is
ignored; no digits at all yields `NaN`.  (Exponent notation, which the
server never feeds to `parseFloat`, is not modelled.) -/
def parseFloatChars (cs : List Char) : JNum :=
  let cs1 := cs.dropWhile Char.isWhitespace
  let sp : Int × List Char :=
    match cs1 with
    | '-' :: rest => (-1, rest)
    | '+' :: rest => (1, rest)
    | _ => (1, cs1)
  let ip := takeDigits sp.2
  let fp : List Nat × List Char :=
    match ip.2 with
    | '.' :: rest => takeDigits rest
    | _ => ([], ip.2)
  if ip.1.isEmpty && fp.1.isEmpty then JNum.nan
  else JNum.dec (sp.1 * Int.ofNat (digitsToNat (ip.1 ++ fp.1))) fp.1.length

/-- Model of JavaScript `parseFloat` on a string. -/
def parseFloatStr (s : String) : JNum :=
  parseFloatChars s.data

/-- Model of JavaScript `parseFloat` applied to an arbitrary value: numbers
pass through, strings are parsed, everything else is `NaN`. -/
def parseFloat : JVal → JNum
  | JVal.jnum n => n
  | JVal.str s => parseFloatStr s
  | _ => JNum.nan

/-- Strict decimal parse the database applies to a string bound to a FLOAT
column: optional surrounding whitespace, optional sign, digits with an
optional fractional part, and nothing else — unlike JavaScript
`parseFloat`, trailing garbage is a cast error (`none`), which makes the
database call throw.  (Postgres also accepts scientific notation, which no
modelled request uses.) -/
def strictFloatChars (cs : List Char) : Option JNum :=
  let cs1 := cs.dropWhile Char.isWhitespace
  let sp : Int × List Char :=
    match cs1 with
    | '-' :: rest => (-1, rest)
    | '+' :: rest => (1, rest)
    | _ => (1, cs1)
  let ip := takeDigits sp.2
  let fp : List Nat × List Char :=
    match ip.2 with
    | '.' :: rest => takeDigits rest
    | _ => ([], ip.2)
  let rest := fp.2.dropWhile Char.isWhitespace
  if ip.1.isEmpty && fp.1.isEmpty then none
  else if !rest.isEmpty then none
  else some (JNum.dec (sp.1 * Int.ofNat (digitsToNat (ip.1 ++ fp.1))) fp.1.length)

/-- Strict decimal parse of a whole string (see `strictFloatChars`). -/
def strictFloatStr (s : String) : Option JNum :=
  strictFloatChars s.data

/-- Strict integer parse the database applies to a string bound to an
INTEGER column: optional surrounding whitespace, optional sign, digits,
nothing else; `none` is a cast error. -/
def strictIntChars (cs : List Char) : Option Int :=
  let cs1 := cs.dropWhile Char.isWhitespace
  let sp : Int × List Char :=
    match cs1 with
    | '-' :: rest => (-1, rest)
    | '+' :: rest => (1, rest)
    | _ => (1, cs1)
  let ip := takeDigits sp.2
  let rest := ip.2.dropWhile Char.isWhitespace
  if ip.1.isEmpty then none
  else if !rest.isEmpty then none
  else some (sp.1 * Int.ofNat (digitsToNat ip.1))

/-- Strict integer parse of a whole string (see `strictIntChars`). -/
def strictIntStr (s : String) : Option Int :=
  strictIntChars s.data

/-- The integer a stored number denotes, if any: JavaScript serializes an
integral float without a decimal point, which the INTEGER column accepts;
a fractional number or `NaN` is a cast error. -/
def JNum.asInt : JNum → Option Int
  | JNum.nan => none
  | JNum.dec m e =>
    if m % ((10 : Int) ^ e) = 0 then some (m / ((10 : Int) ^ e)) else none

/-- Outcome of writing one attribute of an update to its column: the
attribute is skipped (`undefined`, which Sequelize drops), a value or SQL
NULL is stored, or the database rejects the cast and the call throws. -/
inductive ColWrite (α : Type) where
  | keep : ColWrite α
  | set : Option α → ColWrite α
  | castError : ColWrite α
deriving DecidableEq

/-- The FLOAT `value` column write of `PUT /api/properties/:id`: the
handler computes `value === '' ? 0 : value` and passes the result raw —
unlike `POST /api/properties` there is no `parseFloat` — so a number
(including `NaN`, which the float column accepts) or a strict numeric
string is stored, `null` stores NULL, `undefined` is skipped, and anything
else (a non-numeric string, a boolean) raises a cast error that aborts the
whole transaction. -/
def putValueWrite : JVal → ColWrite JNum
  | JVal.undef => ColWrite.keep
  | JVal.null => ColWrite.set none
  | JVal.jnum n => ColWrite.set (some n)
  | JVal.jbool _ => ColWrite.castError
  | JVal.str s =>
    if s = "" then ColWrite.set (some (JNum.dec 0 0))
    else
      match strictFloatStr s with
      | some n => ColWrite.set (some n)
      | none => ColWrite.castError

/-- The INTEGER `owner_id` column write of `PUT /api/properties/:id`: the
body's `owner_id` is passed raw; integral numbers and strict integer
strings are stored, `null` stores NULL, `undefined` is skipped, anything
else is a cast error. -/
def putOwnerWrite : JVal → ColWrite Int
  | JVal.undef => ColWrite.keep
  | JVal.null => ColWrite.set none
  | JVal.jnum n =>
    match n.asInt with
    | some k => ColWrite.set (some k)
    | none => ColWrite.castError
  | JVal.jbool _ => ColWrite.castError
  | JVal.str s =>
    match strictIntStr s with
    | some k => ColWrite.set (some k)
    | none => ColWrite.castError

/-- JavaScript truthiness of a submitted `id` field (a number or absent):
`0` and an absent id are falsy, as in `if (addr.id)`. -/
def truthyId : Option Nat → Bool
  | some n => n != 0
  | none => false

/-- Row of the `Property` table (`sequelize.define('Property', ...)`);
`value` is the nullable FLOAT column (`none` is SQL NULL). -/
structure PropertyRow where
  id : Nat
  name : JVal
  property_type : JVal
  status : JVal
  value : Option JNum
  owner_id : Option JVal
deriving DecidableEq

/-- Row of the `PropertyAddress` table. -/
structure AddressRow where
  id : Nat
  property_id : Option Nat
  street : JVal
  city : JVal
  state : JVal
  zip : JVal
  is_primary : Bool
deriving DecidableEq

/-- Row of the `Unit` table. -/
structure UnitRow where
  id : Nat
  address_id : Option Nat
  unit_number : JVal
  rent_amount : JVal
  status : JVal
deriving DecidableEq

/-- Row of the `Tenant` table. -/
structure TenantRow where
  id : Nat
  name : JVal
  email : JVal
  phone : JVal
  unit_id : Option Nat
  lease_start_date : JVal
  lease_end_date : JVal
  rent : JVal
deriving DecidableEq

/-- Row of the `Photo` table. -/
structure PhotoRow where
  id : Nat
  property_id : Option Nat
  unit_id : Option Nat
  name : JVal
  url : JVal
  is_main : Bool
deriving DecidableEq

/-- Row of the `AccountType` table. -/
structure AccountTypeRow where
  id : Nat
  name : JVal
  description : JVal
deriving DecidableEq

/-- Row of the `SubscriptionPlan` table.  `features` is the JSON string the
seed routine produces with `JSON.stringify`. -/
structure PlanRow where
  id : Nat
  name : JVal
  description : JVal
  price : JNum
  billing_cycle : JVal
  features : JVal
deriving DecidableEq

/-- Row of the `Subscription` table.  The `start_date`/`end_date` columns,
which the server only ever fills with the current time, are outside the
model (no claim inspects them). -/
structure SubscriptionRow where
  id : Nat
  user_id : JVal
  plan_id : Option Nat
  status : JVal
  payment_method : JVal
deriving DecidableEq

/-- Row of the `Maintenance` table. -/
structure MaintRow where
  id : Nat
  title : JVal
  description : JVal
  priority : JVal
  status : JVal
  property_id : Option Nat
  unit_id : Option Nat
  reported_by : JVal
  assigned_to : JVal
  due_date : JVal
deriving DecidableEq

/-- Row of the `Portfolio` table. -/
structure PortfolioRow where
  id : Nat
  name : JVal
  description : JVal
  user_id : JVal
deriving DecidableEq

/-- The database: one list of rows per table the claims touch, plus the
autoincrement counter of each of those tables.  (Tables none of the claims
mention — owners, associations, board members, accounts, transactions,
payments, portfolio-property links — are omitted; no modelled handler
reads or writes them.) -/
structure Store where
  properties : List PropertyRow
  addresses : List AddressRow
  units : List UnitRow
  tenants : List TenantRow
  photos : List PhotoRow
  accountTypes : List AccountTypeRow
  plans : List PlanRow
  subscriptions : List SubscriptionRow
  maintenance : List MaintRow
  portfolios : List PortfolioRow
  nextPropertyId : Nat
  nextAddressId : Nat
  nextUnitId : Nat
  nextTenantId : Nat
  nextPhotoId : Nat
  nextAccountTypeId : Nat
  nextPlanId : Nat
  nextSubscriptionId : Nat
  nextMaintId : Nat
  nextPortfolioId : Nat
deriving DecidableEq

/-- The empty database, as after `sequelize.sync` on a fresh schema. -/
def emptyStore : Store :=
  { properties := [], addresses := [], units := [], tenants := [], photos := []
    accountTypes := [], plans := [], subscriptions := [], maintenance := []
    portfolios := []
    nextPropertyId := 1, nextAddressId := 1, nextUnitId := 1, nextTenantId := 1
    nextPhotoId := 1, nextAccountTypeId := 1, nextPlanId := 1
    nextSubscriptionId := 1, nextMaintId := 1, nextPortfolioId := 1 }

/-- Response bodies, abstracted to the shapes the claims distinguish: the
empty 204 body, a JSON `null`, an `{error: ...}` object, or a serialized
row.  Eager-loaded relations of a returned row are not replicated in the
body (they are recoverable from the store). -/
inductive Body where
  | empty : Body
  | jnull : Body
  | err : String → Body
  | property : PropertyRow → Body
  | address : AddressRow → Body
  | unitRow : UnitRow → Body
  | tenant : TenantRow → Body
  | photo : PhotoRow → Body
  | maint : MaintRow → Body
  | accountType : AccountTypeRow → Body
  | subscription : SubscriptionRow → Body
  | portfolio : PortfolioRow → Body
deriving DecidableEq

/-- Does a body carry an `error` field? -/
def Body.isError : Body → Bool
  | Body.err _ => true
  | _ => false

/-!
The transaction monad.  `app.post('/api/properties')` and
`app.put('/api/properties/:id')` wrap every database call in one Sequelize
transaction `t`; the catch branch calls `t.rollback()` and answers 500.
`TxM` threads the pending transaction store and a call counter; a failure
oracle `fails : Nat → Bool` says whether the n-th database call throws.
All writes in both handlers carry `{ transaction: t }` in the source, so a
thrown call aborts the whole body and the handler keeps the pre-transaction
store.
-/

/-- State-and-failure monad for a handler body running inside one database
transaction. -/
def TxM (α : Type) : Type :=
  (Nat → Bool) → Store → Nat → Except Unit (α × Store × Nat)

/-- Return for `TxM`. -/
def txPure {α : Type} (a : α) : TxM α :=
  fun _ s n => Except.ok (a, s, n)

/-- Sequencing for `TxM`. -/
def txBind {α β : Type} (m : TxM α) (f : α → TxM β) : TxM β :=
  fun fails s n =>
    match m fails s n with
    | Except.error e => Except.error e
    | Except.ok (a, s2, n2) => f a fails s2 n2

/-- One database call that writes: it throws when the oracle says so,
otherwise applies its effect to the pending store. -/
def dbWrite (f : Store → Store) : TxM Unit :=
  fun fails s n =>
    if fails n then Except.error () else Except.ok ((), f s, n + 1)

/-- One database call that reads: it throws when the oracle says so,
otherwise returns a value computed from the pending store. -/
def dbRead {α : Type} (f : Store → α) : TxM α :=
  fun fails s n =>
    if fails n then Except.error () else Except.ok (f s, s, n + 1)

/-!
Request shapes.  Absent keys are `none` / `JVal.undef`, mirroring the
destructuring in each handler.
-/

/-- A nested address object submitted inside a property create/update.
`is_primary` in the submission is overwritten by the handler inside
`PUT/POST /api/properties` (the spread `{...addr, is_primary: index === 0}`
puts the handler's flag last) but is honoured by the single-address
endpoints. -/
structure AddrSub where
  id : Option Nat := none
  street : Option JVal := none
  city : Option JVal := none
  state : Option JVal := none
  zip : Option JVal := none
  is_primary : Option Bool := none
  property_id : Option Nat := none
deriving DecidableEq

/-- A photo object submitted inside `PUT /api/properties/:id`,
`PUT /api/units/:id` or `PUT /api/photos/:id`. -/
structure PhotoSub where
  id : Option Nat := none
  name : Option JVal := none
  url : Option JVal := none
  is_main : Option Bool := none
deriving DecidableEq

/-- Body of `PUT /api/properties/:id` after destructuring. -/
structure PutPropReq where
  name : JVal := JVal.undef
  property_type : JVal := JVal.undef
  status : JVal := JVal.undef
  value : JVal := JVal.undef
  owner_id : JVal := JVal.undef
  addresses : Option (List AddrSub) := none
  photos : Option (List PhotoSub) := none
deriving DecidableEq

/-- Body of `POST /api/properties` after destructuring. -/
structure PostPropReq where
  name : JVal := JVal.undef
  property_type : JVal := JVal.undef
  status : JVal := JVal.undef
  value : JVal := JVal.undef
  owner_id : JVal := JVal.undef
  addresses : Option (List AddrSub) := none
deriving DecidableEq

/-!
`PUT /api/properties/:id` (src/server.js lines 493-615).
-/

/-- Application of the parent update `Property.update({name, ...,
value: value === '' ? 0 : value, owner_id}, {where: {id}})` to the matched
row, given the already-resolved column writes for `value` and `owner_id`
(the handler only reaches the row when neither cast failed).  Sequelize
skips `undefined` attributes; the STRING columns accept every modelled
scalar without failing. -/
def applyPropUpdate (req : PutPropReq) (v : ColWrite JNum) (o : ColWrite Int)
    (r : PropertyRow) : PropertyRow :=
  { r with
    name := if req.name = JVal.undef then r.name else req.name
    property_type :=
      if req.property_type = JVal.undef then r.property_type else req.property_type
    status := if req.status = JVal.undef then r.status else req.status
    value :=
      match v with
      | ColWrite.set w => w
      | _ => r.value
    owner_id :=
      match o with
      | ColWrite.set (some k) => some (JVal.jnum (JNum.dec k 0))
      | ColWrite.set none => none
      | _ => r.owner_id }

/-- Effect of a successful parent `Property.update` on the store. -/
def updatePropertyRow (pid : Nat) (req : PutPropReq) (s : Store) : Store :=
  { s with
    properties := s.properties.map
      (fun r =>
        if r.id == pid then
          applyPropUpdate req (putValueWrite req.value) (putOwnerWrite req.owner_id) r
        else r) }

/-- The parent `Property.update` of `PUT /api/properties/:id` as a
transaction step: it throws when the oracle says so or when the database
rejects the raw `value` or `owner_id` it is handed (e.g. a non-numeric
string `value` — the source, unlike POST, applies no `parseFloat`), in
which case the whole transaction aborts before any address or photo diff
runs. -/
def parentUpdateStep (pid : Nat) (req : PutPropReq) : TxM Unit :=
  fun fails s n =>
    if fails n then Except.error ()
    else if putValueWrite req.value = ColWrite.castError then Except.error ()
    else if putOwnerWrite req.owner_id = ColWrite.castError then Except.error ()
    else Except.ok ((), updatePropertyRow pid req s, n + 1)

/-- `addresses.filter(addr => addr.id).map(addr => addr.id)`: the ids of the
submitted addresses that carry a truthy id. -/
def submittedIds (subs : List AddrSub) : List Nat :=
  (subs.filter (fun a => truthyId a.id)).filterMap (fun a => a.id)

/-- The destroy step `PropertyAddress.destroy({where: {property_id: id, id:
{[Op.notIn]: addressIds}}})`.  When `addressIds` is empty Sequelize renders
`NOT IN (NULL)`, which matches no row, so nothing is deleted. -/
def destroyAddressesNotIn (pid : Nat) (subs : List AddrSub) (s : Store) : Store :=
  let keep := submittedIds subs
  if keep.isEmpty then s
  else
    { s with
      addresses := s.addresses.filter
        (fun r => !(r.property_id == some pid && !(keep.contains r.id))) }

/-- Application of the submitted address attributes to an existing row
(`PropertyAddress.update({...addr, ...})`): present keys overwrite, absent
keys are left alone.  The `id` key in the spread matches the `where` clause
and is a no-op. -/
def applyAddrFields (a : AddrSub) (r : AddressRow) : AddressRow :=
  { r with
    street := a.street.getD r.street
    city := a.city.getD r.city
    state := a.state.getD r.state
    zip := a.zip.getD r.zip
    property_id :=
      match a.property_id with
      | some n => some n
      | none => r.property_id }

/-- The update object `{...addr, is_primary: index === 0}` of the composite
handlers: the handler's primary flag wins over any submitted one. -/
def applyAddrUpdate (a : AddrSub) (prim : Bool) (r : AddressRow) : AddressRow :=
  { applyAddrFields a r with is_primary := prim }

/-- A freshly created address row `{...addr, property_id: pid, is_primary:
prim}`.  An explicit id in the spread is honoured by `create`; otherwise the
autoincrement id `fresh` is used.  Absent columns default to `NULL` (and the
`is_primary` key of the spread is overwritten by `prim`). -/
def mkAddrRow (a : AddrSub) (pid : Nat) (prim : Bool) (fresh : Nat) : AddressRow :=
  { id := a.id.getD fresh
    property_id := some pid
    street := a.street.getD JVal.null
    city := a.city.getD JVal.null
    state := a.state.getD JVal.null
    zip := a.zip.getD JVal.null
    is_primary := prim }

/-- One iteration of the `for (const [index, addr] of addresses.entries())`
loop of `PUT /api/properties/:id`: update by id when `addr.id` is truthy,
otherwise create. -/
def addrWriteStep (pid : Nat) (prim : Bool) (a : AddrSub) (s : Store) : Store :=
  if truthyId a.id then
    { s with
      addresses := s.addresses.map
        (fun r => if a.id == some r.id then applyAddrUpdate a prim r else r) }
  else
    { s with
      addresses := s.addresses ++ [mkAddrRow a pid prim s.nextAddressId]
      nextAddressId := if a.id = none then s.nextAddressId + 1 else s.nextAddressId }

/-- The address loop of `PUT /api/properties/:id` as transaction steps; the
index starts at 0 and only index 0 is flagged primary. -/
def addrLoop (pid : Nat) : Nat → List AddrSub → TxM Unit
  | _, [] => txPure ()
  | idx, a :: rest =>
    txBind (dbWrite (addrWriteStep pid (idx == 0) a)) (fun _ => addrLoop pid (idx + 1) rest)

/-- The whole `if (addresses) { ... }` block of `PUT /api/properties/:id`. -/
def addressesPhase (pid : Nat) : Option (List AddrSub) → TxM Unit
  | none => txPure ()
  | some subs =>
    txBind (dbWrite (destroyAddressesNotIn pid subs)) (fun _ => addrLoop pid 0 subs)

/-- `photos.filter(p => p.id).map(p => p.id)`. -/
def photoKeepIds (ps : List PhotoSub) : List Nat :=
  (ps.filter (fun p => truthyId p.id)).filterMap (fun p => p.id)

/-- `Photo.destroy({where: {id: {[Op.in]: ids}}})` (only called with a
non-empty id list). -/
def destroyPhotos (ids : List Nat) (s : Store) : Store :=
  { s with photos := s.photos.filter (fun p => !(ids.contains p.id)) }

/-- `Photo.update({name: photo.name, is_main: photo.is_main}, ...)`;
Sequelize skips the keys whose value is `undefined`. -/
def applyPhotoUpdate (p : PhotoSub) (r : PhotoRow) : PhotoRow :=
  { r with name := p.name.getD r.name, is_main := p.is_main.getD r.is_main }

/-- A photo row created by `PUT /api/properties/:id` (`{property_id: id,
name, url, is_main}`). -/
def mkPhotoRowProp (p : PhotoSub) (pid : Nat) (fresh : Nat) : PhotoRow :=
  { id := fresh
    property_id := some pid
    unit_id := none
    name := p.name.getD JVal.null
    url := p.url.getD JVal.null
    is_main := p.is_main.getD false }

/-- One iteration of the photo loop of `PUT /api/properties/:id`. -/
def photoWriteStep (pid : Nat) (p : PhotoSub) (s : Store) : Store :=
  if truthyId p.id then
    { s with
      photos := s.photos.map
        (fun r => if p.id == some r.id then applyPhotoUpdate p r else r) }
  else
    { s with
      photos := s.photos ++ [mkPhotoRowProp p pid s.nextPhotoId]
      nextPhotoId := s.nextPhotoId + 1 }

/-- The photo loop of `PUT /api/properties/:id` as transaction steps. -/
def photoLoop (pid : Nat) : List PhotoSub → TxM Unit
  | [] => txPure ()
  | p :: rest => txBind (dbWrite (photoWriteStep pid p)) (fun _ => photoLoop pid rest)

/-- The whole `if (photos) { ... }` block of `PUT /api/properties/:id`:
read the existing photos of the property, destroy the dropped ones (the
destroy call only happens when there is something to drop), then update or
create each submitted photo. -/
def photosPhase (pid : Nat) : Option (List PhotoSub) → TxM Unit
  | none => txPure ()
  | some ps =>
    txBind
      (dbRead (fun s => (s.photos.filter (fun r => r.property_id == some pid)).map (fun r => r.id)))
      (fun existingIds =>
        let updatedIds := photoKeepIds ps
        let toDelete := existingIds.filter (fun i => !(updatedIds.contains i))
        txBind (if toDelete.isEmpty then txPure () else dbWrite (destroyPhotos toDelete))
          (fun _ => photoLoop pid ps))

/-- The transaction body of `PUT /api/properties/:id`: parent update (which
can also throw on a bad column cast), then the address diff, then the photo
diff. -/
def putPropertyBody (pid : Nat) (req : PutPropReq) : TxM Unit :=
  txBind (parentUpdateStep pid req)
    (fun _ => txBind (addressesPhase pid req.addresses)
      (fun _ => photosPhase pid req.photos))

/-- The post-commit `Property.findByPk(id)` of the composite handlers:
`res.json` of the row, or of `null` when the property does not exist. -/
def fetchPropertyBody (pid : Nat) (s : Store) : Body :=
  match s.properties.find? (fun r => r.id == pid) with
  | none => Body.jnull
  | some p => Body.property p

/-- Handler of `PUT /api/properties/:id`: run the transaction body; on any
thrown step roll back (keep the original store) and answer 500, otherwise
commit and answer 200 with the re-fetched property. -/
def putProperty (fails : Nat → Bool) (pid : Nat) (req : PutPropReq) (s : Store) :
    Nat × Body × Store :=
  match putPropertyBody pid req fails s 0 with
  | Except.error _ => (500, Body.err "Failed to update property", s)
  | Except.ok (_, s2, _) => (200, fetchPropertyBody pid s2, s2)

/-- The success-path result of `PUT /api/properties/:id` (no database call
throws). -/
def putPropertyOk (pid : Nat) (req : PutPropReq) (s : Store) : Nat × Body × Store :=
  putProperty (fun _ => false) pid req s

/-!
`POST /api/properties` (src/server.js lines 425-491).
-/

/-- The property row created by `POST /api/properties`: `value` is `0` for
the empty string and `parseFloat(value)` otherwise; `owner_id` is
`owner_id || null`; `property_type`/`status` fall back to their column
defaults. -/
def mkPropertyRow (req : PostPropReq) (fresh : Nat) : PropertyRow :=
  { id := fresh
    name := jvalOrNull req.name
    property_type :=
      if req.property_type = JVal.undef then JVal.str "residential" else req.property_type
    status := if req.status = JVal.undef then JVal.str "active" else req.status
    value := some (if req.value = JVal.str "" then JNum.dec 0 0 else parseFloat req.value)
    owner_id := if falsy req.owner_id then none else some req.owner_id }

/-- The `Property.create` step of `POST /api/properties`, returning the new
row's id. -/
def createPropertyStep (req : PostPropReq) : TxM Nat :=
  fun fails s n =>
    if fails n then Except.error ()
    else
      Except.ok (s.nextPropertyId,
        { s with
          properties := s.properties ++ [mkPropertyRow req s.nextPropertyId]
          nextPropertyId := s.nextPropertyId + 1 },
        n + 1)

/-- One `PropertyAddress.create({...addr, property_id, is_primary: index ===
0})` of `POST /api/properties`: every submitted address is created, the
first one is flagged primary. -/
def postAddrStep (pid : Nat) (prim : Bool) (a : AddrSub) (s : Store) : Store :=
  { s with
    addresses := s.addresses ++ [mkAddrRow a pid prim s.nextAddressId]
    nextAddressId := if a.id = none then s.nextAddressId + 1 else s.nextAddressId }

/-- The address-creation loop of `POST /api/properties` as transaction
steps. -/
def postAddrLoop (pid : Nat) : Nat → List AddrSub → TxM Unit
  | _, [] => txPure ()
  | idx, a :: rest =>
    txBind (dbWrite (postAddrStep pid (idx == 0) a)) (fun _ => postAddrLoop pid (idx + 1) rest)

/-- The transaction body of `POST /api/properties`: create the parent, then
create the addresses when `addresses && addresses.length > 0`. -/
def postPropertyBody (req : PostPropReq) : TxM Nat :=
  txBind (createPropertyStep req)
    (fun pid =>
      txBind
        (match req.addresses with
         | some subs => if 0 < subs.length then postAddrLoop pid 0 subs else txPure ()
         | none => txPure ())
        (fun _ => txPure pid))

/-- Handler of `POST /api/properties`: run the transaction body; on any
thrown step roll back and answer 500, otherwise commit and answer 201 with
the re-fetched property. -/
def postProperty (fails : Nat → Bool) (req : PostPropReq) (s : Store) :
    Nat × Body × Store :=
  match postPropertyBody req fails s 0 with
  | Except.error _ => (500, Body.err "Failed to create property", s)
  | Except.ok (pid, s2, _) => (201, fetchPropertyBody pid s2, s2)

/-- The success-path result of `POST /api/properties`. -/
def postPropertyOk (req : PostPropReq) (s : Store) : Nat × Body × Store :=
  postProperty (fun _ => false) req s

/-!
Single-row GET handlers (src/server.js lines 392-423, 677-700, 1446-1462).
-/

/-- Handler of `GET /api/properties/:id`: the row (with its eager-loaded
relations, not replicated in the body model) or a 404 error body. -/
def getPropertyById (i : Nat) (s : Store) : Nat × Body :=
  match s.properties.find? (fun r => r.id == i) with
  | none => (404, Body.err "Property not found")
  | some p => (200, Body.property p)

/-- Handler of `GET /api/units/:id`. -/
def getUnitById (i : Nat) (s : Store) : Nat × Body :=
  match s.units.find? (fun r => r.id == i) with
  | none => (404, Body.err "Unit not found")
  | some u => (200, Body.unitRow u)

/-- Handler of `GET /api/portfolios/:id`. -/
def getPortfolioById (i : Nat) (s : Store) : Nat × Body :=
  match s.portfolios.find? (fun r => r.id == i) with
  | none => (404, Body.err "Portfolio not found")
  | some p => (200, Body.portfolio p)

/-!
Update-then-refetch PUT handlers (src/server.js lines 1091-1101, 1283-1293
and 631-643): `Model.update(req.body, {where: {id}})` followed by
`findByPk(id)` and `res.json(updated)` — when no row exists the update
matches nothing and the response is a 200 with a JSON `null` body.
-/

/-- Body of `PUT /api/maintenance/:id` (all updatable columns). -/
structure MaintReq where
  title : Option JVal := none
  description : Option JVal := none
  priority : Option JVal := none
  status : Option JVal := none
  property_id : Option Nat := none
  unit_id : Option Nat := none
  reported_by : Option JVal := none
  assigned_to : Option JVal := none
  due_date : Option JVal := none
deriving DecidableEq

/-- Application of a maintenance update: present keys overwrite. -/
def applyMaintUpdate (req : MaintReq) (r : MaintRow) : MaintRow :=
  { r with
    title := req.title.getD r.title
    description := req.description.getD r.description
    priority := req.priority.getD r.priority
    status := req.status.getD r.status
    property_id :=
      match req.property_id with
      | some n => some n
      | none => r.property_id
    unit_id :=
      match req.unit_id with
      | some n => some n
      | none => r.unit_id
    reported_by := req.reported_by.getD r.reported_by
    assigned_to := req.assigned_to.getD r.assigned_to
    due_date := req.due_date.getD r.due_date }

/-- Handler of `PUT /api/maintenance/:id`. -/
def putMaintenance (i : Nat) (req : MaintReq) (s : Store) : Nat × Body × Store :=
  let s2 : Store :=
    { s with
      maintenance := s.maintenance.map (fun r => if r.id == i then applyMaintUpdate req r else r) }
  match s2.maintenance.find? (fun r => r.id == i) with
  | none => (200, Body.jnull, s2)
  | some r => (200, Body.maint r, s2)

/-- Application of a `PUT /api/photos/:id` body. -/
def applyPhotoPatch (p : PhotoSub) (r : PhotoRow) : PhotoRow :=
  { r with
    name := p.name.getD r.name
    url := p.url.getD r.url
    is_main := p.is_main.getD r.is_main }

/-- Handler of `PUT /api/photos/:id`. -/
def putPhoto (i : Nat) (req : PhotoSub) (s : Store) : Nat × Body × Store :=
  let s2 : Store :=
    { s with photos := s.photos.map (fun r => if r.id == i then applyPhotoPatch req r else r) }
  match s2.photos.find? (fun r => r.id == i) with
  | none => (200, Body.jnull, s2)
  | some r => (200, Body.photo r, s2)

/-- Application of a `PUT /api/properties/addresses/:id` body: unlike the
composite handlers, the submitted `is_primary` is honoured as-is. -/
def applyAddrPatch (a : AddrSub) (r : AddressRow) : AddressRow :=
  { applyAddrFields a r with is_primary := a.is_primary.getD r.is_primary }

/-- Handler of `PUT /api/properties/addresses/:id`. -/
def putAddress (i : Nat) (req : AddrSub) (s : Store) : Nat × Body × Store :=
  let s2 : Store :=
    { s with addresses := s.addresses.map (fun r => if r.id == i then applyAddrPatch req r else r) }
  match s2.addresses.find? (fun r => r.id == i) with
  | none => (200, Body.jnull, s2)
  | some r => (200, Body.address r, s2)

/-- Body of `PUT /api/account-types/:id`. -/
structure AccountTypeReq where
  name : JVal := JVal.undef
  description : JVal := JVal.undef
deriving DecidableEq

/-- Handler of `PUT /api/account-types/:id` (src/server.js lines 823-842):
this one looks the row up first and answers 404 when it is absent. -/
def putAccountType (i : Nat) (req : AccountTypeReq) (s : Store) : Nat × Body × Store :=
  match s.accountTypes.find? (fun r => r.id == i) with
  | none => (404, Body.err "Account type not found", s)
  | some r =>
    let r2 : AccountTypeRow := { r with name := req.name, description := req.description }
    (200, Body.accountType r2,
      { s with accountTypes := s.accountTypes.map (fun x => if x.id == i then r2 else x) })

/-!
Remaining handlers the claims mention.
-/

/-- Handler of `POST /api/properties/:propertyId/addresses` (src/server.js
lines 617-629): `PropertyAddress.create({...req.body, property_id})` — the
submitted `is_primary` flag is passed through unchecked, and no other
address of the property is cleared. -/
def postAddress (pid : Nat) (a : AddrSub) (s : Store) : Nat × Body × Store :=
  let row : AddressRow := mkAddrRow a pid (a.is_primary.getD false) s.nextAddressId
  (201, Body.address row,
    { s with
      addresses := s.addresses ++ [row]
      nextAddressId := if a.id = none then s.nextAddressId + 1 else s.nextAddressId })

/-- Body of `POST /api/tenants`. -/
structure TenantReq where
  name : JVal := JVal.undef
  email : JVal := JVal.undef
  phone : JVal := JVal.undef
  unit_id : Option Nat := none
  lease_start_date : JVal := JVal.undef
  lease_end_date : JVal := JVal.undef
  rent : JVal := JVal.undef
deriving DecidableEq

/-- Handler of `POST /api/tenants` (src/server.js lines 732-740):
`Tenant.create(req.body)` and a 201 with the raw created row. -/
def postTenant (req : TenantReq) (s : Store) : Nat × Body × Store :=
  let row : TenantRow :=
    { id := s.nextTenantId
      name := jvalOrNull req.name
      email := jvalOrNull req.email
      phone := jvalOrNull req.phone
      unit_id := req.unit_id
      lease_start_date := jvalOrNull req.lease_start_date
      lease_end_date := jvalOrNull req.lease_end_date
      rent := jvalOrNull req.rent }
  (201, Body.tenant row,
    { s with tenants := s.tenants ++ [row], nextTenantId := s.nextTenantId + 1 })

/-- Body of `POST /api/subscriptions`. -/
structure SubscriptionReq where
  userId : JVal := JVal.undef
  planId : Option Nat := none
deriving DecidableEq

/-- Handler of `POST /api/subscriptions` (src/server.js lines 1364-1388):
validate the plan with `findByPk(planId)` (404 when absent), create the
subscription with `user_id: userId || 1`, and answer with `res.json(...)`
— that is status 200, not 201. -/
def postSubscription (req : SubscriptionReq) (s : Store) : Nat × Body × Store :=
  match req.planId.bind (fun pid => s.plans.find? (fun p => p.id == pid)) with
  | none => (404, Body.err "Subscription plan not found", s)
  | some _ =>
    let row : SubscriptionRow :=
      { id := s.nextSubscriptionId
        user_id := if falsy req.userId then JVal.jnum (JNum.dec 1 0) else req.userId
        plan_id := req.planId
        status := JVal.str "active"
        payment_method := JVal.str "credit_card" }
    (200, Body.subscription row,
      { s with
        subscriptions := s.subscriptions ++ [row]
        nextSubscriptionId := s.nextSubscriptionId + 1 })

/-- Handler of `DELETE /api/properties/:id` (src/server.js lines 1115-1140).
Inside one transaction it deletes the property's `PropertyAddress` rows and
then the property row, nothing else — there is no JavaScript-level cascade
to units or tenants.  At the database level the foreign keys that
`hasMany` declares on nullable columns default to `ON DELETE SET NULL`,
modelled here: a unit whose `address_id` pointed at a deleted address keeps
its row with `address_id` nulled, and likewise the `property_id` of photos
and maintenance rows of the deleted property; tenant rows are untouched. -/
def deleteProperty (pid : Nat) (s : Store) : Nat × Body × Store :=
  let doomed : List Nat :=
    (s.addresses.filter (fun r => r.property_id == some pid)).map (fun r => r.id)
  let s1 : Store :=
    { s with
      addresses := s.addresses.filter (fun r => !(r.property_id == some pid))
      units := s.units.map
        (fun u =>
          if (u.address_id.map (fun i => doomed.contains i)).getD false
          then { u with address_id := none } else u) }
  let s2 : Store :=
    { s1 with
      properties := s1.properties.filter (fun p => !(p.id == pid))
      photos := s1.photos.map
        (fun ph => if ph.property_id == some pid then { ph with property_id := none } else ph)
      maintenance := s1.maintenance.map
        (fun m => if m.property_id == some pid then { m with property_id := none } else m) }
  (204, Body.empty, s2)

/-- The models actually registered with `sequelize.define` in src/server.js.
`TransactionType` is referenced by the `/api/transaction-types` handlers but
never defined, so those handler bodies throw a `ReferenceError` on every
request. -/
def definedModels : List String :=
  ["Property", "PropertyAddress", "Unit", "Tenant", "Owner", "Association",
   "BoardMember", "AccountType", "Account", "Transaction", "Payment",
   "Maintenance", "Photo", "SubscriptionPlan", "Subscription", "Portfolio",
   "PortfolioProperty"]

/-- Handler of `GET /api/transaction-types` (src/server.js lines 1039-1047):
the body references the `TransactionType` model; since it is not defined the
try block throws and the catch answers 500. -/
def getTransactionTypes (s : Store) : Nat × Body × Store :=
  if definedModels.contains "TransactionType" then (200, Body.empty, s)
  else (500, Body.err "Failed to fetch transaction types", s)

/-- Handler of `POST /api/transaction-types` (src/server.js lines
1049-1057), same situation as the GET. -/
def postTransactionTypes (s : Store) : Nat × Body × Store :=
  if definedModels.contains "TransactionType" then (201, Body.empty, s)
  else (500, Body.err "Failed to create transaction type", s)

/-!
The boot routine `syncModels` (src/server.js lines 1695-1763): after the
schema sync (row-preserving, modelled as the identity on rows) it seeds the
`AccountType` table and the `SubscriptionPlan` table, each only when its
`count()` is zero.
-/

/-- The three account-type seed rows of `syncModels`. -/
def accountTypeSeeds (fresh : Nat) : List AccountTypeRow :=
  [ { id := fresh, name := JVal.str "Operating",
      description := JVal.str "For day-to-day operations" },
    { id := fresh + 1, name := JVal.str "Reserve",
      description := JVal.str "For long-term savings and major repairs" },
    { id := fresh + 2, name := JVal.str "Escrow",
      description := JVal.str "For holding funds in trust" } ]

/-- The three subscription-plan seed rows of `syncModels`; `features` is the
`JSON.stringify` output of each seed's feature object. -/
def planSeeds (fresh : Nat) : List PlanRow :=
  [ { id := fresh
      name := JVal.str "Basic Plan"
      description := JVal.str "Perfect for small property managers with up to 5 properties"
      price := JNum.dec 999 2
      billing_cycle := JVal.str "monthly"
      features := JVal.str "\x7b\"property_limit\":5,\"unit_limit\":10,\"reports\":\"basic\",\"support\":\"email\"\x7d" },
    { id := fresh + 1
      name := JVal.str "Pro Plan"
      description := JVal.str "Ideal for growing property management businesses with up to 20 properties"
      price := JNum.dec 1999 2
      billing_cycle := JVal.str "monthly"
      features := JVal.str "\x7b\"property_limit\":20,\"unit_limit\":50,\"reports\":\"advanced\",\"support\":\"priority_email\"\x7d" },
    { id := fresh + 2
      name := JVal.str "Enterprise Plan"
      description := JVal.str "Comprehensive solution for large property management companies"
      price := JNum.dec 4999 2
      billing_cycle := JVal.str "monthly"
      features := JVal.str "\x7b\"property_limit\":\"unlimited\",\"unit_limit\":\"unlimited\",\"reports\":\"premium\",\"support\":\"24_7\"\x7d" } ]

/-- The seed routine: `bulkCreate` the account types when `AccountType.
count() === 0`, then the plans when `SubscriptionPlan.count() === 0`. -/
def syncModels (s : Store) : Store :=
  let s1 : Store :=
    if s.accountTypes.length == 0 then
      { s with
        accountTypes := s.accountTypes ++ accountTypeSeeds s.nextAccountTypeId
        nextAccountTypeId := s.nextAccountTypeId + 3 }
    else s
  if s1.plans.length == 0 then
    { s1 with
      plans := s1.plans ++ planSeeds s1.nextPlanId
      nextPlanId := s1.nextPlanId + 3 }
  else s1

/-!
Helper lemmas shared by several claim proofs.
-/

/-- A `find?` by id misses exactly when no row carries the id. -/
theorem find_id_none_of_forall {α : Type} (l : List α) (idf : α → Nat) (i : Nat)
    (h : ∀ x ∈ l, idf x ≠ i) : l.find? (fun x => idf x == i) = none :=
  List.find?_eq_none.mpr (fun x hx => by simpa using h x hx)

/-- A guarded row-update map touches nothing when no row satisfies the
guard. -/
theorem map_guard_id {α : Type} (l : List α) (p : α → Bool) (g : α → α)
    (h : ∀ x ∈ l, p x = false) :
    l.map (fun x => if p x then g x else x) = l := by
  induction l with
  | nil => rfl
  | cons a t ih =>
    have ha : p a = false := h a (List.mem_cons_self a t)
    simp [ha, ih (fun x hx => h x (List.mem_cons_of_mem a hx))]

/-- Number of rows of a property flagged primary, the quantity of the
single-primary invariant. -/
def countPrim (pid : Nat) (l : List AddressRow) : Nat :=
  (l.filter (fun r => r.property_id == some pid && r.is_primary)).length

/-- C9: every request to `GET /api/transaction-types` and every request to
`POST /api/transaction-types` responds with status 500, in every store
state, because the `TransactionType` model referenced by these handlers is
never defined. -/
theorem C9_transaction_types_always_500 (s : Store) :
    (getTransactionTypes s).1 = 500 ∧ (getTransactionTypes s).2.2 = s ∧
    (postTransactionTypes s).1 = 500 ∧ (postTransactionTypes s).2.2 = s := by
  have hm : ¬ ("TransactionType" ∈ definedModels) := by decide
  refine ⟨?_, ?_, ?_, ?_⟩ <;>
    simp [getTransactionTypes, postTransactionTypes, hm]

/-- C6: running the seed routine on a store whose `AccountType` and
`SubscriptionPlan` tables are already non-empty inserts no rows — the store
is unchanged. -/
theorem C6_syncModels_idempotent (s : Store)
    (hA : s.accountTypes ≠ []) (hP : s.plans ≠ []) :
    syncModels s = s := by
  have eA : (s.accountTypes.length == 0) = false := by
    simpa [Nat.beq_eq_true_eq, List.length_eq_zero] using hA
  have eP : (s.plans.length == 0) = false := by
    simpa [Nat.beq_eq_true_eq, List.length_eq_zero] using hP
  simp [syncModels, eA, eP]

/-- A store whose seed tables are already populated, for the C6 witness. -/
def seededStore : Store :=
  { emptyStore with
    accountTypes := accountTypeSeeds 1, nextAccountTypeId := 4
    plans := planSeeds 1, nextPlanId := 4 }

/-- Witness for C6 at a concrete populated store. -/
theorem C6_syncModels_idempotent_witness : syncModels seededStore = seededStore :=
  C6_syncModels_idempotent seededStore (by decide) (by decide)

/-- C3: a GET-by-id request for an id not present in the corresponding
table responds 404 with a JSON error body (never 200 with a null or empty
body), for `GET /api/properties/:id`, `GET /api/units/:id` and
`GET /api/portfolios/:id`. -/
theorem C3_get_missing_id_404 (s : Store) (i : Nat)
    (hp : ∀ r ∈ s.properties, r.id ≠ i)
    (hu : ∀ r ∈ s.units, r.id ≠ i)
    (hf : ∀ r ∈ s.portfolios, r.id ≠ i) :
    getPropertyById i s = (404, Body.err "Property not found") ∧
    getUnitById i s = (404, Body.err "Unit not found") ∧
    getPortfolioById i s = (404, Body.err "Portfolio not found") := by
  refine ⟨?_, ?_, ?_⟩
  · simp [getPropertyById, find_id_none_of_forall s.properties (fun r => r.id) i hp]
  · simp [getUnitById, find_id_none_of_forall s.units (fun r => r.id) i hu]
  · simp [getPortfolioById, find_id_none_of_forall s.portfolios (fun r => r.id) i hf]

/-- Witness for C3 on the empty store at id 1. -/
theorem C3_get_missing_id_404_witness :
    getPropertyById 1 emptyStore = (404, Body.err "Property not found") ∧
    getUnitById 1 emptyStore = (404, Body.err "Unit not found") ∧
    getPortfolioById 1 emptyStore = (404, Body.err "Portfolio not found") :=
  C3_get_missing_id_404 emptyStore 1
    (by intro r hr; simp [emptyStore] at hr)
    (by intro r hr; simp [emptyStore] at hr)
    (by intro r hr; simp [emptyStore] at hr)

/-- C2: if any database call of the composite write of
`POST /api/properties` or `PUT /api/properties/:id` throws, the transaction
is rolled back — the stored state is exactly the state before the request —
and the response status is 500 with an error body. -/
theorem C2_composite_write_atomicity (fp fq : Nat → Bool) (pid : Nat)
    (rp : PutPropReq) (rq : PostPropReq) (sp sq : Store)
    (hp : putPropertyBody pid rp fp sp 0 = Except.error ())
    (hq : postPropertyBody rq fq sq 0 = Except.error ()) :
    putProperty fp pid rp sp = (500, Body.err "Failed to update property", sp) ∧
    postProperty fq rq sq = (500, Body.err "Failed to create property", sq) := by
  constructor
  · simp [putProperty, hp]
  · simp [postProperty, hq]

/-- Witness for C2: with an oracle on which the very first database call
throws, both composite handlers answer 500 and leave the empty store
untouched. -/
theorem C2_composite_write_atomicity_witness :
    putProperty (fun _ => true) 1 {} emptyStore =
      (500, Body.err "Failed to update property", emptyStore) ∧
    postProperty (fun _ => true) {} emptyStore =
      (500, Body.err "Failed to create property", emptyStore) :=
  C2_composite_write_atomicity (fun _ => true) (fun _ => true) 1 {} {}
    emptyStore emptyStore rfl rfl

/-- C4 counterexample: `PUT /api/maintenance/:id` on an id with no row does
not respond 404 — it updates nothing, re-fetches `null` and answers 200
with a JSON `null` body (and `PUT /api/photos/:id`,
`PUT /api/properties/addresses/:id` behave the same way, see the amended
theorem). -/
theorem C4_put_missing_counterexample :
    (putMaintenance 1 {} emptyStore).1 = 200 ∧
    (putMaintenance 1 {} emptyStore).2.1 = Body.jnull ∧
    (putMaintenance 1 {} emptyStore).1 ≠ 404 := by
  refine ⟨rfl, rfl, by decide⟩

/-- C4 amended: on an absent id, `PUT /api/maintenance/:id`,
`PUT /api/photos/:id` and `PUT /api/properties/addresses/:id` answer 200
with a JSON `null` body and leave the store unchanged, while the PUT
handlers that look the row up first — `PUT /api/account-types/:id` in
particular — answer 404 with an error body. -/
theorem C4_put_missing_row_statuses (s : Store) (i : Nat)
    (mreq : MaintReq) (preq : PhotoSub) (areq : AddrSub) (atreq : AccountTypeReq)
    (hm : ∀ r ∈ s.maintenance, r.id ≠ i)
    (hp : ∀ r ∈ s.photos, r.id ≠ i)
    (ha : ∀ r ∈ s.addresses, r.id ≠ i)
    (hat : ∀ r ∈ s.accountTypes, r.id ≠ i) :
    putMaintenance i mreq s = (200, Body.jnull, s) ∧
    putPhoto i preq s = (200, Body.jnull, s) ∧
    putAddress i areq s = (200, Body.jnull, s) ∧
    putAccountType i atreq s = (404, Body.err "Account type not found", s) := by
  have bm : ∀ x ∈ s.maintenance, ((fun r : MaintRow => r.id == i) x) = false :=
    fun x hx => beq_eq_false_iff_ne.mpr (hm x hx)
  have bp : ∀ x ∈ s.photos, ((fun r : PhotoRow => r.id == i) x) = false :=
    fun x hx => beq_eq_false_iff_ne.mpr (hp x hx)
  have ba : ∀ x ∈ s.addresses, ((fun r : AddressRow => r.id == i) x) = false :=
    fun x hx => beq_eq_false_iff_ne.mpr (ha x hx)
  have hmapm := map_guard_id s.maintenance (fun r => r.id == i) (applyMaintUpdate mreq) bm
  have hmapp := map_guard_id s.photos (fun r => r.id == i) (applyPhotoPatch preq) bp
  have hmapa := map_guard_id s.addresses (fun r => r.id == i) (applyAddrPatch areq) ba
  have hfm := find_id_none_of_forall s.maintenance (fun r => r.id) i hm
  have hfp := find_id_none_of_forall s.photos (fun r => r.id) i hp
  have hfa := find_id_none_of_forall s.addresses (fun r => r.id) i ha
  have hft := find_id_none_of_forall s.accountTypes (fun r => r.id) i hat
  refine ⟨?_, ?_, ?_, ?_⟩
  · simp only [putMaintenance, hmapm, hfm]
  · simp only [putPhoto, hmapp, hfp]
  · simp only [putAddress, hmapa, hfa]
  · simp only [putAccountType, hft]

/-- Witness for the C4 amended theorem on the empty store at id 1. -/
theorem C4_put_missing_row_statuses_witness :
    putMaintenance 1 {} emptyStore = (200, Body.jnull, emptyStore) ∧
    putPhoto 1 {} emptyStore = (200, Body.jnull, emptyStore) ∧
    putAddress 1 {} emptyStore = (200, Body.jnull, emptyStore) ∧
    putAccountType 1 {} emptyStore = (404, Body.err "Account type not found", emptyStore) :=
  C4_put_missing_row_statuses emptyStore 1 {} {} {} {}
    (by intro r hr; simp [emptyStore] at hr)
    (by intro r hr; simp [emptyStore] at hr)
    (by intro r hr; simp [emptyStore] at hr)
    (by intro r hr; simp [emptyStore] at hr)

/-- A one-property store with one address, one unit in that address, and
one tenant in that unit: the shape on which the cascade claim C5 fails. -/
def storeC5 : Store :=
  { emptyStore with
    properties :=
      [{ id := 1, name := JVal.str "P", property_type := JVal.str "residential",
         status := JVal.str "active", value := some (JNum.dec 0 0), owner_id := none }]
    addresses :=
      [{ id := 1, property_id := some 1, street := JVal.str "1 Main St",
         city := JVal.null, state := JVal.null, zip := JVal.null, is_primary := true }]
    units :=
      [{ id := 1, address_id := some 1, unit_number := JVal.str "A",
         rent_amount := JVal.null, status := JVal.null }]
    tenants :=
      [{ id := 1, name := JVal.str "T", email := JVal.null, phone := JVal.null,
         unit_id := some 1, lease_start_date := JVal.null,
         lease_end_date := JVal.null, rent := JVal.null }]
    nextPropertyId := 2, nextAddressId := 2, nextUnitId := 2, nextTenantId := 2 }

/-- C5 evaluated at the failing input: `DELETE /api/properties/1` on
`storeC5` succeeds (204) and removes the property's addresses, but the unit
that referenced address 1 and the tenant that referenced unit 1 both
remain — the handler deletes only addresses and the property, so the
claimed cascade completeness (also promised by the handler's own comment
"this will cascade to units") does not hold. -/
theorem C5_delete_property_leaves_units_tenants :
    (deleteProperty 1 storeC5).1 = 204 ∧
    (deleteProperty 1 storeC5).2.2.addresses = [] ∧
    (deleteProperty 1 storeC5).2.2.properties = [] ∧
    (deleteProperty 1 storeC5).2.2.units.map (fun u => u.id) = [1] ∧
    (deleteProperty 1 storeC5).2.2.tenants.map (fun t => t.id) = [1] := by
  refine ⟨rfl, rfl, rfl, rfl, rfl⟩

/-- A store holding only the three seeded subscription plans, for C7. -/
def storeC7 : Store :=
  { emptyStore with plans := planSeeds 1, nextPlanId := 4 }

/-- C7 counterexample: a successful `POST /api/subscriptions` (the plan
exists, the row is created) responds with status 200, not the claimed
201 — the handler ends with `res.json(subscription)` and never sets 201. -/
theorem C7_post_subscription_not_201 :
    (postSubscription { planId := some 1 } storeC7).1 = 200 ∧
    (postSubscription { planId := some 1 } storeC7).1 ≠ 201 ∧
    (postSubscription { planId := some 1 } storeC7).2.2.subscriptions.length = 1 := by
  refine ⟨rfl, by decide, rfl⟩

/-- The address-creation loop of `POST /api/properties` never touches the
`Property` table: whenever it runs to completion, the resulting pending
store has the same property rows it started with. -/
theorem postAddrLoop_properties (pid : Nat) :
    ∀ (subs : List AddrSub) (idx n : Nat) (s : Store) (fails : Nat → Bool)
      (r : Unit × Store × Nat),
      postAddrLoop pid idx subs fails s n = Except.ok r →
      r.2.1.properties = s.properties := by
  intro subs
  induction subs with
  | nil =>
    intro idx n s fails r h
    simp only [postAddrLoop, txPure] at h
    injection h with h2
    subst h2
    rfl
  | cons a t ih =>
    intro idx n s fails r h
    simp only [postAddrLoop, txBind, dbWrite] at h
    cases hf : fails n with
    | true => rw [hf] at h; simp at h
    | false =>
      rw [hf] at h
      simp only [if_false, Bool.false_eq_true] at h
      exact (ih (idx + 1) (n + 1) (postAddrStep pid (idx == 0) a s) fails r h).trans rfl

/-- The store a completed `POST /api/properties` transaction body commits:
the property rows are the old ones plus exactly the new row built by
`mkPropertyRow`. -/
theorem postPropertyBody_ok_properties (fails : Nat → Bool) (req : PostPropReq)
    (s : Store) (r : Nat × Store × Nat)
    (h : postPropertyBody req fails s 0 = Except.ok r) :
    r.2.1.properties = s.properties ++ [mkPropertyRow req s.nextPropertyId] := by
  obtain ⟨pid, s2, n2⟩ := r
  simp only [postPropertyBody, txBind, createPropertyStep, txPure] at h
  cases hf : fails 0 with
  | true => rw [hf] at h; simp at h
  | false =>
    rw [hf] at h
    simp only [if_false, Bool.false_eq_true] at h
    cases hA : req.addresses with
    | none =>
      rw [hA] at h
      simp only [txPure] at h
      injection h with h2
      rw [← congrArg (fun p => p.2.1) h2]
    | some subs =>
      rw [hA] at h
      by_cases hl : 0 < subs.length
      · simp only [hl, if_true] at h
        cases hL : postAddrLoop s.nextPropertyId 0 subs fails
            { s with
              properties := s.properties ++ [mkPropertyRow req s.nextPropertyId]
              nextPropertyId := s.nextPropertyId + 1 } 1 with
        | error e => rw [hL] at h; simp at h
        | ok v =>
          rw [hL] at h
          injection h with h2
          have hv := postAddrLoop_properties s.nextPropertyId subs 0 1 _ fails v hL
          have : s2 = v.2.1 := by
            have := congrArg (fun p : Nat × Store × Nat => p.2.1) h2
            simpa using this.symm
          rw [this, hv]
      · simp only [hl, if_false] at h
        simp only [txPure] at h
        injection h with h2
        rw [← congrArg (fun p => p.2.1) h2]

/-- C10: the property row created by `POST /api/properties` stores `0` as
`value` when the submitted value is the empty string and
`parseFloat(value)` otherwise, and stores `null` as `owner_id` exactly when
the submitted `owner_id` is absent or falsy. -/
theorem C10_post_property_value_owner (fails : Nat → Bool) (req : PostPropReq)
    (s : Store) (r : Nat × Store × Nat)
    (h : postPropertyBody req fails s 0 = Except.ok r) :
    mkPropertyRow req s.nextPropertyId ∈ (postProperty fails req s).2.2.properties ∧
    (req.value = JVal.str "" →
      (mkPropertyRow req s.nextPropertyId).value = some (JNum.dec 0 0)) ∧
    (req.value ≠ JVal.str "" →
      (mkPropertyRow req s.nextPropertyId).value = some (parseFloat req.value)) ∧
    (falsy req.owner_id = true →
      (mkPropertyRow req s.nextPropertyId).owner_id = none) ∧
    (falsy req.owner_id = false →
      (mkPropertyRow req s.nextPropertyId).owner_id = some req.owner_id) := by
  have hprops := postPropertyBody_ok_properties fails req s r h
  obtain ⟨pid, s2, n2⟩ := r
  refine ⟨?_, ?_, ?_, ?_, ?_⟩
  · simp only [postProperty, h]
    rw [hprops]
    exact List.mem_append_right _ (List.mem_singleton_self _)
  · intro hv; simp [mkPropertyRow, hv]
  · intro hv; simp [mkPropertyRow, hv]
  · intro ho; simp [mkPropertyRow, ho]
  · intro ho; simp [mkPropertyRow, ho]

/-- The request of the C10 witness: empty-string value, explicit `null`
owner. -/
def reqC10 : PostPropReq :=
  { name := JVal.str "W", value := JVal.str "", owner_id := JVal.null }

/-- Witness for C10 on the empty store: the created row has value 0 and a
null owner. -/
theorem C10_post_property_value_owner_witness :
    mkPropertyRow reqC10 emptyStore.nextPropertyId ∈
      (postProperty (fun _ => false) reqC10 emptyStore).2.2.properties ∧
    (reqC10.value = JVal.str "" →
      (mkPropertyRow reqC10 emptyStore.nextPropertyId).value = some (JNum.dec 0 0)) ∧
    (reqC10.value ≠ JVal.str "" →
      (mkPropertyRow reqC10 emptyStore.nextPropertyId).value = some (parseFloat reqC10.value)) ∧
    (falsy reqC10.owner_id = true →
      (mkPropertyRow reqC10 emptyStore.nextPropertyId).owner_id = none) ∧
    (falsy reqC10.owner_id = false →
      (mkPropertyRow reqC10 emptyStore.nextPropertyId).owner_id = some reqC10.owner_id) :=
  C10_post_property_value_owner (fun _ => false) reqC10 emptyStore
    (1, { emptyStore with
            properties := [mkPropertyRow reqC10 1]
            nextPropertyId := 2 }, 1) rfl

/-- C7 amended: a successful create answers 201 for the entity resources —
`POST /api/tenants`, `POST /api/properties` and
`POST /api/properties/:propertyId/addresses` are proved here — but
`POST /api/subscriptions` answers 200 with the created row, because it ends
in `res.json(...)` without setting a status. -/
theorem C7_post_statuses (tr : TenantReq) (s1 : Store)
    (fails : Nat → Bool) (pr : PostPropReq) (s2 : Store) (r : Nat × Store × Nat)
    (pid : Nat) (a : AddrSub) (s3 : Store)
    (sr : SubscriptionReq) (s4 : Store) (plan : PlanRow)
    (hpost : postPropertyBody pr fails s2 0 = Except.ok r)
    (hplan : sr.planId.bind (fun p => s4.plans.find? (fun q => q.id == p)) = some plan) :
    (postTenant tr s1).1 = 201 ∧
    (postProperty fails pr s2).1 = 201 ∧
    (postAddress pid a s3).1 = 201 ∧
    (postSubscription sr s4).1 = 200 ∧
    (postSubscription sr s4).2.2.subscriptions.length = s4.subscriptions.length + 1 := by
  obtain ⟨pid2, sb, nb⟩ := r
  refine ⟨rfl, ?_, rfl, ?_, ?_⟩
  · simp [postProperty, hpost]
  · simp [postSubscription, hplan]
  · simp [postSubscription, hplan]

/-- Witness for the C7 amended theorem at concrete requests and stores. -/
theorem C7_post_statuses_witness :
    (postTenant {} emptyStore).1 = 201 ∧
    (postProperty (fun _ => false) {} emptyStore).1 = 201 ∧
    (postAddress 1 {} emptyStore).1 = 201 ∧
    (postSubscription { planId := some 1 } storeC7).1 = 200 ∧
    (postSubscription { planId := some 1 } storeC7).2.2.subscriptions.length =
      storeC7.subscriptions.length + 1 :=
  C7_post_statuses {} emptyStore (fun _ => false) {} emptyStore
    (1, { emptyStore with
            properties := [mkPropertyRow {} 1]
            nextPropertyId := 2 }, 1)
    1 {} emptyStore { planId := some 1 } storeC7 ((planSeeds 1).get ⟨0, by decide⟩)
    rfl (by decide)

/-- The address-creation loop of `POST /api/properties` as a pure store
transformer (its effect when no database call throws). -/
def postAddrPure (pid : Nat) : Nat → List AddrSub → Store → Store
  | _, [], s => s
  | idx, a :: rest, s => postAddrPure pid (idx + 1) rest (postAddrStep pid (idx == 0) a s)

/-- Under the never-failing oracle the address loop succeeds and computes
its pure store transformer. -/
theorem postAddrLoop_nofail (pid : Nat) :
    ∀ (subs : List AddrSub) (idx n : Nat) (s : Store),
      postAddrLoop pid idx subs (fun _ => false) s n =
        Except.ok ((), postAddrPure pid idx subs s, n + subs.length) := by
  intro subs
  induction subs with
  | nil => intro idx n s; rfl
  | cons a t ih =>
    intro idx n s
    have harith : n + 1 + t.length = n + (t.length + 1) := by omega
    simp only [postAddrLoop, postAddrPure, txBind, dbWrite, Bool.false_eq_true,
      if_false, ih (idx + 1) (n + 1), List.length_cons, harith]

/-- Primary counting distributes over table append. -/
theorem countPrim_append (pid : Nat) (l1 l2 : List AddressRow) :
    countPrim pid (l1 ++ l2) = countPrim pid l1 + countPrim pid l2 := by
  simp [countPrim, List.filter_append]

/-- An address created with the primary flag off never raises the primary
count. -/
theorem postAddrStep_countPrim_false (pid : Nat) (a : AddrSub) (s : Store) :
    countPrim pid (postAddrStep pid false a s).addresses = countPrim pid s.addresses := by
  simp [postAddrStep, countPrim, List.filter_append, mkAddrRow]

/-- From index 1 on, the creation loop of `POST /api/properties` flags no
address primary, so the primary count is unchanged. -/
theorem postAddrPure_countPrim_pos (pid : Nat) :
    ∀ (subs : List AddrSub) (idx : Nat) (s : Store), idx ≠ 0 →
      countPrim pid (postAddrPure pid idx subs s).addresses = countPrim pid s.addresses := by
  intro subs
  induction subs with
  | nil => intro idx s _; rfl
  | cons a t ih =>
    intro idx s hidx
    cases idx with
    | zero => exact absurd rfl hidx
    | succ k =>
      show countPrim pid
        (postAddrPure pid (k + 2) t (postAddrStep pid (k + 1 == 0) a s)).addresses = _
      rw [ih (k + 2) _ (by omega)]
      exact postAddrStep_countPrim_false pid a s

/-- The whole creation loop of `POST /api/properties` adds at most one
primary-flagged address (the one at index 0). -/
theorem postAddrPure_countPrim_zero (pid : Nat) (subs : List AddrSub) (s : Store) :
    countPrim pid (postAddrPure pid 0 subs s).addresses ≤ countPrim pid s.addresses + 1 := by
  cases subs with
  | nil => exact Nat.le_succ _
  | cons a t =>
    show countPrim pid (postAddrPure pid 1 t (postAddrStep pid (0 == 0) a s)).addresses ≤ _
    rw [postAddrPure_countPrim_pos pid t 1 _ (by omega)]
    simp only [postAddrStep, countPrim_append]
    have h1 : countPrim pid [mkAddrRow a pid (0 == 0) s.nextAddressId] ≤ 1 := by
      simpa using List.length_filter_le _ [mkAddrRow a pid (0 == 0) s.nextAddressId]
    omega

/-- C8 amended: the composite property create does maintain the invariant
for the property it creates — after a successful `POST /api/properties`
whose new id is fresh, at most one of the new property's addresses is
flagged primary (only submission index 0 gets the flag). -/
theorem C8_post_property_single_primary (req : PostPropReq) (s : Store)
    (h : ∀ r ∈ s.addresses, r.property_id ≠ some s.nextPropertyId) :
    countPrim s.nextPropertyId (postPropertyOk req s).2.2.addresses ≤ 1 := by
  have hbase : countPrim s.nextPropertyId s.addresses = 0 := by
    have hfil : s.addresses.filter
        (fun r => r.property_id == some s.nextPropertyId && r.is_primary) = [] :=
      List.filter_eq_nil_iff.mpr (fun a ha => by simp [h a ha])
    simp [countPrim, hfil]
  cases hA : req.addresses with
  | none =>
    simp only [postPropertyOk, postProperty, postPropertyBody, txBind,
      createPropertyStep, txPure, hA, if_false]
    exact le_trans (le_of_eq hbase) (by omega)
  | some subs =>
    cases subs with
    | nil =>
      simp only [postPropertyOk, postProperty, postPropertyBody, txBind,
        createPropertyStep, txPure, hA, List.length_nil, Nat.lt_irrefl, if_false]
      exact le_trans (le_of_eq hbase) (by omega)
    | cons a t =>
      simp only [postPropertyOk, postProperty, postPropertyBody, txBind,
        createPropertyStep, txPure, hA, List.length_cons, Nat.succ_pos, if_true,
        postAddrLoop_nofail]
      calc countPrim s.nextPropertyId
            (postAddrPure s.nextPropertyId 0 (a :: t)
              { s with
                properties := s.properties ++ [mkPropertyRow req s.nextPropertyId]
                nextPropertyId := s.nextPropertyId + 1 }).addresses
          ≤ countPrim s.nextPropertyId s.addresses + 1 :=
            postAddrPure_countPrim_zero _ _ _
        _ ≤ 1 := by omega

/-- Witness for the C8 amended theorem: creating a property with two
addresses on the empty store yields exactly one primary address. -/
theorem C8_post_property_single_primary_witness :
    countPrim 1 (postPropertyOk
      { name := JVal.str "P",
        addresses := some [{ street := some (JVal.str "A") },
                           { street := some (JVal.str "B") }] }
      emptyStore).2.2.addresses ≤ 1 :=
  C8_post_property_single_primary _ emptyStore
    (by intro r hr; simp [emptyStore] at hr)

/-- The seeded boot store, first step of the C8 counterexample. -/
def storeC8a : Store := syncModels emptyStore

/-- Second step of the C8 counterexample: create property 1 with one
(primary) address through `POST /api/properties`. -/
def storeC8b : Store :=
  (postProperty (fun _ => false)
    { name := JVal.str "Prop", addresses := some [{ street := some (JVal.str "A") }] }
    storeC8a).2.2

/-- Third step of the C8 counterexample: add a second address to property 1
through `POST /api/properties/1/addresses` with `is_primary: true` in the
body — the handler passes the flag through and clears nothing. -/
def storeC8c : Store :=
  (postAddress 1 { street := some (JVal.str "B"), is_primary := some true } storeC8b).2.2

/-- C8 counterexample: a state reachable from the seeded boot state by two
exposed operations in which property 1 has two addresses flagged primary,
refuting the claimed invariant. -/
theorem C8_two_primary_addresses_reachable :
    countPrim 1 storeC8c.addresses = 2 := by decide

/-- A property with two stored addresses (ids 1 and 2), the shape on which
the C1 counterexample runs. -/
def storeC1 : Store :=
  { emptyStore with
    properties :=
      [{ id := 1, name := JVal.str "P", property_type := JVal.str "residential",
         status := JVal.str "active", value := some (JNum.dec 0 0), owner_id := none }]
    addresses :=
      [{ id := 1, property_id := some 1, street := JVal.str "Old A",
         city := JVal.null, state := JVal.null, zip := JVal.null, is_primary := true },
       { id := 2, property_id := some 1, street := JVal.str "Old B",
         city := JVal.null, state := JVal.null, zip := JVal.null, is_primary := false }]
    nextPropertyId := 2, nextAddressId := 3 }

/-- The C1 counterexample request: one submitted address carrying id 99,
which matches no existing row. -/
def reqC1 : PutPropReq :=
  { addresses := some [{ id := some 99, street := some (JVal.str "New") }] }

/-- C1 counterexample: the submitted address carries id 99, which matches
no existing row, so by the claim it should be inserted; instead the handler
takes the update branch (`if (addr.id)`), which matches zero rows, and the
destroy step deletes the two stored addresses — the resulting address table
is empty: nothing was inserted and no address ends up flagged primary. -/
theorem C1_stale_id_not_inserted :
    (putPropertyOk 1 reqC1 storeC1).2.2.addresses = [] ∧
    (putPropertyOk 1 reqC1 storeC1).1 = 200 := by
  exact ⟨rfl, rfl⟩

/-- Both branches of the destroy step leave the address counter alone. -/
theorem destroyAddressesNotIn_nextAddressId (pid : Nat) (subs : List AddrSub) (s : Store) :
    (destroyAddressesNotIn pid subs s).nextAddressId = s.nextAddressId := by
  by_cases h : (submittedIds subs).isEmpty <;> simp [destroyAddressesNotIn, h]

/-- A loop iteration on a submitted address without a truthy id appends a
freshly created row. -/
theorem addrWriteStep_create (pid : Nat) (p : Bool) (a : AddrSub) (s : Store)
    (h : truthyId a.id = false) :
    (addrWriteStep pid p a s).addresses = s.addresses ++ [mkAddrRow a pid p s.nextAddressId] := by
  simp only [addrWriteStep, h, Bool.false_eq_true, if_false]

/-- A loop iteration on a submitted address with a truthy id maps the
guarded row update over the table. -/
theorem addrWriteStep_update (pid : Nat) (p : Bool) (a : AddrSub) (s : Store)
    (h : truthyId a.id = true) :
    (addrWriteStep pid p a s).addresses =
      s.addresses.map (fun r => if a.id == some r.id then applyAddrUpdate a p r else r) := by
  simp only [addrWriteStep, h, if_true]

/-- An update iteration leaves the address counter alone. -/
theorem addrWriteStep_update_nextAddressId (pid : Nat) (p : Bool) (a : AddrSub) (s : Store)
    (h : truthyId a.id = true) :
    (addrWriteStep pid p a s).nextAddressId = s.nextAddressId := by
  simp only [addrWriteStep, h, if_true]

/-- The address-diff functions never change a row's primary key. -/
theorem applyAddrUpdate_id (a : AddrSub) (p : Bool) (r : AddressRow) :
    (applyAddrUpdate a p r).id = r.id := rfl

/-- Any loop iteration can only grow the address counter. -/
theorem addrWriteStep_next_ge (pid : Nat) (p : Bool) (a : AddrSub) (s : Store) :
    s.nextAddressId ≤ (addrWriteStep pid p a s).nextAddressId := by
  unfold addrWriteStep
  split
  · exact Nat.le_refl _
  · show s.nextAddressId ≤ if a.id = none then s.nextAddressId + 1 else s.nextAddressId
    split <;> omega

/-- A loop iteration on an address whose id differs from a row's id leaves
that row in the table unchanged (updates target another id, creates only
append). -/
theorem addrWriteStep_mem_untouched (pid : Nat) (p : Bool) (a : AddrSub) (s : Store)
    (x : AddressRow) (hx : x ∈ s.addresses) (hne : a.id ≠ some x.id) :
    x ∈ (addrWriteStep pid p a s).addresses := by
  cases htr : truthyId a.id with
  | true =>
    rw [addrWriteStep_update pid p a s htr]
    have hguard : (a.id == some x.id) = false := beq_eq_false_iff_ne.mpr hne
    have h2 := List.mem_map_of_mem
      (fun r => if a.id == some r.id then applyAddrUpdate a p r else r) hx
    simp only [hguard, Bool.false_eq_true, if_false] at h2
    exact h2
  | false =>
    rw [addrWriteStep_create pid p a s htr]
    exact List.mem_append_left _ hx

/-- The update-or-create loop of `PUT /api/properties/:id` as a pure store
transformer (its effect when no database call throws). -/
def putAddrPure (pid : Nat) : Nat → List AddrSub → Store → Store
  | _, [], s => s
  | idx, a :: rest, s => putAddrPure pid (idx + 1) rest (addrWriteStep pid (idx == 0) a s)

/-- Under the never-failing oracle the PUT address loop succeeds and
computes its pure store transformer. -/
theorem addrLoop_nofail (pid : Nat) :
    ∀ (subs : List AddrSub) (idx n : Nat) (s : Store),
      addrLoop pid idx subs (fun _ => false) s n =
        Except.ok ((), putAddrPure pid idx subs s, n + subs.length) := by
  intro subs
  induction subs with
  | nil => intro idx n s; rfl
  | cons a t ih =>
    intro idx n s
    have harith : n + 1 + t.length = n + (t.length + 1) := by omega
    simp only [addrLoop, putAddrPure, txBind, dbWrite, Bool.false_eq_true,
      if_false, ih (idx + 1) (n + 1), List.length_cons, harith]

/-- A stored row none of the submitted addresses points at by id survives
the whole PUT loop unchanged. -/
theorem putAddrPure_mem_untouched (pid : Nat) :
    ∀ (subs : List AddrSub) (idx : Nat) (t : Store) (x : AddressRow),
      x ∈ t.addresses → (∀ a ∈ subs, a.id ≠ some x.id) →
      x ∈ (putAddrPure pid idx subs t).addresses := by
  intro subs
  induction subs with
  | nil => intro idx t x hx _; exact hx
  | cons a rest ih =>
    intro idx t x hx hne
    simp only [putAddrPure]
    exact ih (idx + 1) _ x
      (addrWriteStep_mem_untouched pid (idx == 0) a t x hx (hne a (List.mem_cons_self a rest)))
      (fun b hb => hne b (List.mem_cons_of_mem a hb))

/-- The whole PUT loop can only grow the address counter. -/
theorem putAddrPure_next_le (pid : Nat) :
    ∀ (subs : List AddrSub) (idx : Nat) (t : Store),
      t.nextAddressId ≤ (putAddrPure pid idx subs t).nextAddressId := by
  intro subs
  induction subs with
  | nil => intro idx t; exact Nat.le_refl _
  | cons a rest ih =>
    intro idx t
    simp only [putAddrPure]
    exact le_trans (addrWriteStep_next_ge pid (idx == 0) a t) (ih (idx + 1) _)

/-- A submitted id is non-truthy exactly when it is absent or zero. -/
theorem truthyId_false_cases {o : Option Nat} (h : truthyId o = false) :
    o = none ∨ o = some 0 := by
  cases o with
  | none => exact Or.inl rfl
  | some n =>
    right
    simp [truthyId] at h
    rw [h]
/-- If no stored row carries id `i`, `i` is below the autoincrement counter,
and no submitted address carries the literal id 0, then no row of the PUT
loop's result carries id `i` either: updates preserve ids and creates use
fresh counter values.  (This is the stale-id clause: a submitted id that
matches no row is never inserted.) -/
theorem putAddrPure_no_id (pid : Nat) :
    ∀ (subs : List AddrSub) (idx : Nat) (t : Store) (i : Nat),
      (∀ r ∈ t.addresses, r.id ≠ i) → i < t.nextAddressId →
      (∀ a ∈ subs, a.id ≠ some 0) →
      ∀ r2 ∈ (putAddrPure pid idx subs t).addresses, r2.id ≠ i := by
  intro subs
  induction subs with
  | nil => intro idx t i hno _ _ r2 hr2; exact hno r2 hr2
  | cons a rest ih =>
    intro idx t i hno hlt h0 r2 hr2
    simp only [putAddrPure] at hr2
    cases htr : truthyId a.id with
    | true =>
      refine ih (idx + 1) _ i ?_ ?_ (fun b hb => h0 b (List.mem_cons_of_mem a hb)) r2 hr2
      · intro r hr
        rw [addrWriteStep_update pid (idx == 0) a t htr] at hr
        rcases List.mem_map.mp hr with ⟨r0, hr0, hr0eq⟩
        have hid : r.id = r0.id := by
          rw [← hr0eq]
          split <;> rfl
        rw [hid]
        exact hno r0 hr0
      · rw [addrWriteStep_update_nextAddressId pid (idx == 0) a t htr]
        exact hlt
    | false =>
      have hanone : a.id = none := by
        rcases truthyId_false_cases htr with h | h
        · exact h
        · exact absurd h (h0 a (List.mem_cons_self a rest))
      refine ih (idx + 1) _ i ?_ ?_ (fun b hb => h0 b (List.mem_cons_of_mem a hb)) r2 hr2
      · intro r hr
        rw [addrWriteStep_create pid (idx == 0) a t htr] at hr
        rcases List.mem_append.mp hr with h | h
        · exact hno r h
        · have hreq : r = mkAddrRow a pid (idx == 0) t.nextAddressId := by simpa using h
          rw [hreq]
          show (mkAddrRow a pid (idx == 0) t.nextAddressId).id ≠ i
          simp only [mkAddrRow, hanone, Option.getD_none]
          omega
      · exact lt_of_lt_of_le hlt (addrWriteStep_next_ge pid (idx == 0) a t)

/-- A submitted address at position `k` whose truthy id matches a stored
row updates that row with its fields, flagging it primary exactly when the
loop index is 0, and no other iteration touches it again (given the other
submitted ids differ). -/
theorem putAddrPure_update (pid : Nat) :
    ∀ (subs : List AddrSub) (idx : Nat) (t : Store) (k : Nat) (a : AddrSub)
      (i : Nat) (r : AddressRow),
      subs.get? k = some a → a.id = some i → i ≠ 0 →
      r ∈ t.addresses → r.id = i →
      (∀ j b, subs.get? j = some b → j ≠ k → b.id ≠ some i) →
      applyAddrUpdate a ((idx + k) == 0) r ∈ (putAddrPure pid idx subs t).addresses := by
  intro subs
  induction subs with
  | nil => intro idx t k a i r hk; simp at hk
  | cons c rest ih =>
    intro idx t k a i r hk haid hi0 hr hrid hothers
    simp only [putAddrPure]
    cases k with
    | zero =>
      have hc : c = a := by simpa using hk
      subst hc
      have htr : truthyId c.id = true := by rw [haid]; simp [truthyId, hi0]
      have hstep : applyAddrUpdate c (idx == 0) r ∈
          (addrWriteStep pid (idx == 0) c t).addresses := by
        rw [addrWriteStep_update pid (idx == 0) c t htr]
        have hguard : (c.id == some r.id) = true := by rw [haid, hrid]; simp
        have h2 := List.mem_map_of_mem
          (fun x => if c.id == some x.id then applyAddrUpdate c (idx == 0) x else x) hr
        simp only [hguard, if_true] at h2
        exact h2
      simp only [Nat.add_zero]
      refine putAddrPure_mem_untouched pid rest (idx + 1) _ _ hstep ?_
      intro b hb
      rcases List.mem_iff_get?.mp hb with ⟨j, hj⟩
      have hbne : b.id ≠ some i :=
        hothers (j + 1) b (by simpa using hj) (by omega)
      show b.id ≠ some (applyAddrUpdate c (idx == 0) r).id
      rw [applyAddrUpdate_id, hrid]
      exact hbne
    | succ k2 =>
      have hcne : c.id ≠ some i := hothers 0 c (by simp) (by omega)
      have hrstep : r ∈ (addrWriteStep pid (idx == 0) c t).addresses :=
        addrWriteStep_mem_untouched pid (idx == 0) c t r hr (by rw [hrid]; exact hcne)
      have harith : idx + (k2 + 1) = idx + 1 + k2 := by omega
      rw [harith]
      exact ih (idx + 1) _ k2 a i r (by simpa using hk) haid hi0 hrstep hrid
        (fun j b hj hne => hothers (j + 1) b (by simpa using hj) (by omega))

/-- A submitted address at position `k` without an id is inserted: the
result contains a freshly-numbered row created from its fields, with
`property_id` set to the path property and the primary flag exactly when
the loop index is 0. -/
theorem putAddrPure_insert (pid : Nat) :
    ∀ (subs : List AddrSub) (idx : Nat) (t : Store) (k : Nat) (a : AddrSub),
      subs.get? k = some a → a.id = none →
      (∀ b ∈ subs, ∀ m, b.id = some m → m < t.nextAddressId) →
      ∃ rn, rn ∈ (putAddrPure pid idx subs t).addresses ∧
        rn = mkAddrRow a pid ((idx + k) == 0) rn.id ∧
        rn.is_primary = ((idx + k) == 0) ∧
        t.nextAddressId ≤ rn.id := by
  intro subs
  induction subs with
  | nil => intro idx t k a hk; simp at hk
  | cons c rest ih =>
    intro idx t k a hk hanone hlt
    simp only [putAddrPure]
    cases k with
    | zero =>
      have hc : c = a := by simpa using hk
      subst hc
      have htr : truthyId c.id = false := by rw [hanone]; rfl
      have hidval : (mkAddrRow c pid (idx == 0) t.nextAddressId).id = t.nextAddressId := by
        simp [mkAddrRow, hanone]
      simp only [Nat.add_zero]
      refine ⟨mkAddrRow c pid (idx == 0) t.nextAddressId, ?_, ?_, rfl, ?_⟩
      · refine putAddrPure_mem_untouched pid rest (idx + 1) _ _ ?_ ?_
        · rw [addrWriteStep_create pid (idx == 0) c t htr]
          exact List.mem_append_right _ (List.mem_singleton_self _)
        · intro b hb hbid
          rw [hidval] at hbid
          have := hlt b (List.mem_cons_of_mem c hb) t.nextAddressId hbid
          omega
      · rw [hidval]
      · rw [hidval]
    | succ k2 =>
      have harith : idx + (k2 + 1) = idx + 1 + k2 := by omega
      rw [harith]
      have hlt1 : ∀ b ∈ rest, ∀ m, b.id = some m →
          m < (addrWriteStep pid (idx == 0) c t).nextAddressId := by
        intro b hb m hm
        exact lt_of_lt_of_le (hlt b (List.mem_cons_of_mem c hb) m hm)
          (addrWriteStep_next_ge pid (idx == 0) c t)
      obtain ⟨rn, hmem, heq, hprim, hge⟩ :=
        ih (idx + 1) _ k2 a (by simpa using hk) hanone hlt1
      exact ⟨rn, hmem, heq, hprim,
        le_trans (addrWriteStep_next_ge pid (idx == 0) c t) hge⟩
/-- The photo loop never touches the address table. -/
theorem photoWriteStep_addresses (pid : Nat) (p : PhotoSub) (s : Store) :
    (photoWriteStep pid p s).addresses = s.addresses := by
  unfold photoWriteStep
  split <;> rfl

/-- Under the never-failing oracle the photo loop succeeds and leaves the
address table alone. -/
theorem photoLoop_nofail_addresses (pid : Nat) :
    ∀ (ps : List PhotoSub) (s : Store) (n : Nat),
      ∃ s2 n2, photoLoop pid ps (fun _ => false) s n = Except.ok ((), s2, n2) ∧
        s2.addresses = s.addresses := by
  intro ps
  induction ps with
  | nil => intro s n; exact ⟨s, n, rfl, rfl⟩
  | cons p rest ih =>
    intro s n
    obtain ⟨s2, n2, heq, haddr⟩ := ih (photoWriteStep pid p s) (n + 1)
    refine ⟨s2, n2, ?_, haddr.trans (photoWriteStep_addresses pid p s)⟩
    simp only [photoLoop, txBind, dbWrite, Bool.false_eq_true, if_false, heq]

/-- Under the never-failing oracle the whole photo phase of
`PUT /api/properties/:id` succeeds and leaves the address table alone. -/
theorem photosPhase_nofail_addresses (pid : Nat) (opt : Option (List PhotoSub)) :
    ∀ (s : Store) (n : Nat),
      ∃ s2 n2, photosPhase pid opt (fun _ => false) s n = Except.ok ((), s2, n2) ∧
        s2.addresses = s.addresses := by
  cases opt with
  | none => intro s n; exact ⟨s, n, rfl, rfl⟩
  | some ps =>
    intro s n
    by_cases hie :
        (((s.photos.filter (fun r => r.property_id == some pid)).map (fun r => r.id)).filter
          (fun i => !((photoKeepIds ps).contains i))).isEmpty
    · obtain ⟨s2, n2, heq, haddr⟩ := photoLoop_nofail_addresses pid ps s (n + 1)
      refine ⟨s2, n2, ?_, haddr⟩
      simp only [photosPhase, txBind, dbRead, txPure, Bool.false_eq_true, if_false,
        hie, if_true, heq]
    · obtain ⟨s2, n2, heq, haddr⟩ := photoLoop_nofail_addresses pid ps
        (destroyPhotos
          (((s.photos.filter (fun r => r.property_id == some pid)).map (fun r => r.id)).filter
            (fun i => !((photoKeepIds ps).contains i))) s) (n + 1 + 1)
      refine ⟨s2, n2, ?_, haddr.trans rfl⟩
      simp only [photosPhase, txBind, dbRead, dbWrite, txPure, Bool.false_eq_true,
        if_false, hie, heq]

/-- With no truthy submitted id the destroy step deletes nothing:
Sequelize renders `Op.notIn []` as `NOT IN (NULL)`, which matches no row. -/
theorem destroyAddressesNotIn_empty (pid : Nat) (subs : List AddrSub) (s : Store)
    (h : submittedIds subs = []) : destroyAddressesNotIn pid subs s = s := by
  simp [destroyAddressesNotIn, h]

/-- With at least one truthy submitted id the destroy step filters the
table by the `property_id = pid AND id NOT IN (...)` condition. -/
theorem destroyAddressesNotIn_addresses (pid : Nat) (subs : List AddrSub) (s : Store)
    (h : submittedIds subs ≠ []) :
    (destroyAddressesNotIn pid subs s).addresses =
      s.addresses.filter
        (fun r => !(r.property_id == some pid && !((submittedIds subs).contains r.id))) := by
  have hie : (submittedIds subs).isEmpty = false := by
    cases hc : submittedIds subs with
    | nil => exact absurd hc h
    | cons x xs => rfl
  simp [destroyAddressesNotIn, hie]

/-- A submitted address with a truthy id contributes that id to
`addressIds`. -/
theorem mem_submittedIds {subs : List AddrSub} {a : AddrSub} {i : Nat}
    (ha : a ∈ subs) (hid : a.id = some i) (h0 : i ≠ 0) : i ∈ submittedIds subs := by
  unfold submittedIds
  refine List.mem_filterMap.mpr ⟨a, ?_, hid⟩
  refine List.mem_filter.mpr ⟨ha, ?_⟩
  rw [hid]
  simp [truthyId, h0]

/-- Positions of a duplicate-free projection: if the `filterMap` of a list
has no duplicates, two positions projecting to the same value coincide. -/
theorem filterMap_nodup_get_pos {α β : Type} {f : α → Option β} :
    ∀ (l : List α), (l.filterMap f).Nodup →
      ∀ (j k : Nat) (x y : α) (b : β),
        l.get? j = some x → l.get? k = some y →
        f x = some b → f y = some b → j = k := by
  intro l
  induction l with
  | nil => intro _ j k x y b hj; simp at hj
  | cons a t ih =>
    intro hnd j k x y b hj hk hfx hfy
    cases j with
    | zero =>
      cases k with
      | zero => rfl
      | succ k2 =>
        have hx : a = x := by simpa using hj
        subst hx
        have hyk : t.get? k2 = some y := by simpa using hk
        have hmem : b ∈ t.filterMap f :=
          List.mem_filterMap.mpr ⟨y, List.get?_mem hyk, hfy⟩
        have hnd2 := hnd
        simp only [List.filterMap_cons, hfx] at hnd2
        exact absurd hmem (List.nodup_cons.mp hnd2).1
    | succ j2 =>
      cases k with
      | zero =>
        have hy : a = y := by simpa using hk
        subst hy
        have hxj : t.get? j2 = some x := by simpa using hj
        have hmem : b ∈ t.filterMap f :=
          List.mem_filterMap.mpr ⟨x, List.get?_mem hxj, hfx⟩
        have hnd2 := hnd
        simp only [List.filterMap_cons, hfy] at hnd2
        exact absurd hmem (List.nodup_cons.mp hnd2).1
      | succ k2 =>
        have htail : (t.filterMap f).Nodup := by
          have hnd2 := hnd
          cases hfa : f a with
          | none => simpa only [List.filterMap_cons, hfa] using hnd2
          | some c =>
            simp only [List.filterMap_cons, hfa] at hnd2
            exact (List.nodup_cons.mp hnd2).2
        have := ih htail j2 k2 x y b (by simpa using hj) (by simpa using hk) hfx hfy
        omega
/-- C1 amended: for every `PUT /api/properties/:id` request carrying an
addresses list — provided the parent update's raw `value`/`owner_id` pass
the database coercion (otherwise the whole request 500s before any diff,
see `parentUpdateStep`), the submitted ids are pairwise distinct, none is
the literal 0, and they lie below the autoincrement counter (ids a client
can only have obtained from existing rows), with unique stored ids — the
handler answers 200 and the diff behaves as follows.  (1) A submitted
address whose id matches a stored row updates that row with its fields and
flags it primary exactly when it is first in submission order, regardless
of the prior flag.  (2) A submitted address without an id is inserted as a
fresh row of the property, primary exactly when first.  (3) When at least
one submitted address carries a truthy id, every stored address of the
property whose id is absent from the submission is deleted.  (4) When no
submitted address carries a truthy id, nothing is deleted (`Op.notIn []`
matches no row).  (5) A submitted address whose id matches no stored row is
neither updated nor inserted: no row with that id exists afterwards. -/
theorem C1_put_property_diff_amended (s : Store) (pid : Nat) (req : PutPropReq)
    (subs : List AddrSub)
    (hA : req.addresses = some subs)
    (hval : putValueWrite req.value ≠ ColWrite.castError)
    (hown : putOwnerWrite req.owner_id ≠ ColWrite.castError)
    (hid0 : ∀ a ∈ subs, a.id ≠ some 0)
    (hdup : (subs.filterMap (fun a => a.id)).Nodup)
    (hnd : (s.addresses.map (fun r => r.id)).Nodup)
    (hfresh : ∀ r ∈ s.addresses, r.id < s.nextAddressId)
    (hlt : ∀ a ∈ subs, ∀ m, a.id = some m → m < s.nextAddressId) :
    (putPropertyOk pid req s).1 = 200 ∧
    (∀ k a i r, subs.get? k = some a → a.id = some i → r ∈ s.addresses → r.id = i →
      applyAddrUpdate a (k == 0) r ∈ (putPropertyOk pid req s).2.2.addresses ∧
      (applyAddrUpdate a (k == 0) r).is_primary = (k == 0)) ∧
    (∀ k a, subs.get? k = some a → a.id = none →
      ∃ rn, rn ∈ (putPropertyOk pid req s).2.2.addresses ∧
        rn = mkAddrRow a pid (k == 0) rn.id ∧
        rn.is_primary = (k == 0) ∧ s.nextAddressId ≤ rn.id) ∧
    (submittedIds subs ≠ [] →
      ∀ r ∈ s.addresses, r.property_id = some pid → r.id ∉ submittedIds subs →
        ∀ r2 ∈ (putPropertyOk pid req s).2.2.addresses, r2.id ≠ r.id) ∧
    (submittedIds subs = [] →
      ∀ r ∈ s.addresses, r ∈ (putPropertyOk pid req s).2.2.addresses) ∧
    (∀ a ∈ subs, ∀ i, a.id = some i → (∀ r ∈ s.addresses, r.id ≠ i) →
      ∀ r2 ∈ (putPropertyOk pid req s).2.2.addresses, r2.id ≠ i) := by
  have hparent : parentUpdateStep pid req (fun _ => false) s 0 =
      Except.ok ((), updatePropertyRow pid req s, 1) := by
    simp only [parentUpdateStep, Bool.false_eq_true, if_false, if_neg hval, if_neg hown]
  have hchain : putPropertyBody pid req (fun _ => false) s 0 =
      photosPhase pid req.photos (fun _ => false)
        (putAddrPure pid 0 subs
          (destroyAddressesNotIn pid subs (updatePropertyRow pid req s)))
        (1 + 1 + subs.length) := by
    simp only [putPropertyBody, txBind, hparent, hA, addressesPhase, dbWrite,
      Bool.false_eq_true, if_false, addrLoop_nofail]
  obtain ⟨sF, nF, hph, haddrpres⟩ := photosPhase_nofail_addresses pid req.photos
    (putAddrPure pid 0 subs (destroyAddressesNotIn pid subs (updatePropertyRow pid req s)))
    (1 + 1 + subs.length)
  have hrun : putPropertyBody pid req (fun _ => false) s 0 = Except.ok ((), sF, nF) :=
    hchain.trans hph
  have hF : (putPropertyOk pid req s).2.2.addresses =
      (putAddrPure pid 0 subs
        (destroyAddressesNotIn pid subs (updatePropertyRow pid req s))).addresses := by
    simp only [putPropertyOk, putProperty, hrun]
    exact haddrpres
  have hDnext : (destroyAddressesNotIn pid subs (updatePropertyRow pid req s)).nextAddressId =
      s.nextAddressId :=
    destroyAddressesNotIn_nextAddressId pid subs (updatePropertyRow pid req s)
  have hDsub : ∀ r0 ∈ (destroyAddressesNotIn pid subs
      (updatePropertyRow pid req s)).addresses, r0 ∈ s.addresses := by
    by_cases hse : submittedIds subs = []
    · rw [destroyAddressesNotIn_empty pid subs _ hse]
      exact fun r0 h => h
    · rw [destroyAddressesNotIn_addresses pid subs _ hse]
      exact fun r0 h => (List.mem_filter.mp h).1
  refine ⟨?_, ?_, ?_, ?_, ?_, ?_⟩
  · simp only [putPropertyOk, putProperty, hrun]
  · -- (1) update clause
    intro k a i r hk haid hr hrid
    have hamem : a ∈ subs := List.get?_mem hk
    have hi0 : i ≠ 0 := by
      intro h
      exact hid0 a hamem (by rw [haid, h])
    have hrD : r ∈ (destroyAddressesNotIn pid subs (updatePropertyRow pid req s)).addresses := by
      by_cases hse : submittedIds subs = []
      · rw [destroyAddressesNotIn_empty pid subs _ hse]
        exact hr
      · rw [destroyAddressesNotIn_addresses pid subs _ hse]
        refine List.mem_filter.mpr ⟨hr, ?_⟩
        have hmemi : r.id ∈ submittedIds subs := by
          rw [hrid]
          exact mem_submittedIds hamem haid hi0
        simp [hmemi]
    have hothers : ∀ j b, subs.get? j = some b → j ≠ k → b.id ≠ some i := by
      intro j b hj hjk hbid
      exact hjk (filterMap_nodup_get_pos subs hdup j k b a i hj hk hbid haid)
    have := putAddrPure_update pid subs 0
      (destroyAddressesNotIn pid subs (updatePropertyRow pid req s))
      k a i r hk haid hi0 hrD hrid hothers
    rw [Nat.zero_add] at this
    rw [hF]
    exact ⟨this, rfl⟩
  · -- (2) insert clause
    intro k a hk hanone
    have hltD : ∀ b ∈ subs, ∀ m, b.id = some m →
        m < (destroyAddressesNotIn pid subs (updatePropertyRow pid req s)).nextAddressId := by
      intro b hb m hm
      rw [hDnext]
      exact hlt b hb m hm
    obtain ⟨rn, hmem, heq, hprim, hge⟩ := putAddrPure_insert pid subs 0
      (destroyAddressesNotIn pid subs (updatePropertyRow pid req s)) k a hk hanone hltD
    rw [Nat.zero_add] at heq hprim
    refine ⟨rn, ?_, heq, hprim, ?_⟩
    · rw [hF]
      exact hmem
    · rw [← hDnext]
      exact hge
  · -- (3) deletion clause
    intro hne r hr hpidr hnotin r2 hr2
    have hnoD : ∀ r0 ∈ (destroyAddressesNotIn pid subs
        (updatePropertyRow pid req s)).addresses, r0.id ≠ r.id := by
      intro r0 hr0 hid
      rw [destroyAddressesNotIn_addresses pid subs _ hne] at hr0
      obtain ⟨hr0s, hr0keep⟩ := List.mem_filter.mp hr0
      have : r0 = r := List.inj_on_of_nodup_map hnd hr0s hr hid
      subst this
      rw [hpidr] at hr0keep
      simp [hnotin] at hr0keep
    rw [hF] at hr2
    exact putAddrPure_no_id pid subs 0 _ r.id hnoD
      (by rw [hDnext]; exact hfresh r hr) hid0 r2 hr2
  · -- (4) no-delete clause
    intro hse r hr
    have hallnone : ∀ a ∈ subs, a.id = none := by
      intro a ha
      cases haid : a.id with
      | none => rfl
      | some m =>
        have hm0 : m ≠ 0 := by
          intro h
          exact hid0 a ha (by rw [haid, h])
        have hmem := mem_submittedIds ha haid hm0
        rw [hse] at hmem
        simp at hmem
    have hrD : r ∈ (destroyAddressesNotIn pid subs
        (updatePropertyRow pid req s)).addresses := by
      rw [destroyAddressesNotIn_empty pid subs _ hse]
      exact hr
    rw [hF]
    refine putAddrPure_mem_untouched pid subs 0 _ r hrD ?_
    intro a ha
    rw [hallnone a ha]
    simp
  · -- (5) stale-id clause
    intro a ha i haid hno r2 hr2
    rw [hF] at hr2
    exact putAddrPure_no_id pid subs 0 _ i
      (fun r0 h => hno r0 (hDsub r0 h))
      (by rw [hDnext]; exact hlt a ha i haid) hid0 r2 hr2
/-- Submitted address A of the C1 witness: existing id 1, new street. -/
def aW1 : AddrSub := { id := some 1, street := some (JVal.str "New A") }

/-- Submitted address B of the C1 witness: no id, to be inserted. -/
def aW2 : AddrSub := { street := some (JVal.str "New B") }

/-- The C1 witness request: submission `[A(id 1), B(new)]`, no photos. -/
def reqW1 : PutPropReq := { addresses := some [aW1, aW2] }

/-- Witness for the C1 amended theorem on the two-address store. -/
theorem C1_put_property_diff_amended_witness :
    (putPropertyOk 1 reqW1 storeC1).1 = 200 ∧
    (∀ k a i r, [aW1, aW2].get? k = some a → a.id = some i →
        r ∈ storeC1.addresses → r.id = i →
      applyAddrUpdate a (k == 0) r ∈ (putPropertyOk 1 reqW1 storeC1).2.2.addresses ∧
      (applyAddrUpdate a (k == 0) r).is_primary = (k == 0)) ∧
    (∀ k a, [aW1, aW2].get? k = some a → a.id = none →
      ∃ rn, rn ∈ (putPropertyOk 1 reqW1 storeC1).2.2.addresses ∧
        rn = mkAddrRow a 1 (k == 0) rn.id ∧
        rn.is_primary = (k == 0) ∧ storeC1.nextAddressId ≤ rn.id) ∧
    (submittedIds [aW1, aW2] ≠ [] →
      ∀ r ∈ storeC1.addresses, r.property_id = some 1 →
        r.id ∉ submittedIds [aW1, aW2] →
        ∀ r2 ∈ (putPropertyOk 1 reqW1 storeC1).2.2.addresses, r2.id ≠ r.id) ∧
    (submittedIds [aW1, aW2] = [] →
      ∀ r ∈ storeC1.addresses, r ∈ (putPropertyOk 1 reqW1 storeC1).2.2.addresses) ∧
    (∀ a ∈ [aW1, aW2], ∀ i, a.id = some i → (∀ r ∈ storeC1.addresses, r.id ≠ i) →
      ∀ r2 ∈ (putPropertyOk 1 reqW1 storeC1).2.2.addresses, r2.id ≠ i) :=
  C1_put_property_diff_amended storeC1 1 reqW1 [aW1, aW2] rfl
    (by decide) (by decide) (by decide) (by decide) (by decide) (by decide)
    (by
      intro a ha m hm
      fin_cases ha <;> simp_all [aW1, aW2, storeC1, emptyStore]
      omega)
